import Mathlib

/-
Shallow embedding of the three Solidity contracts of the
team-agent-financial-stack repository:

  src/contracts/src/AgentAllowance.sol     (AllowanceLedger)
  src/contracts/src/InvoiceSettlement.sol  (InvoiceEscrow)
  src/contracts/src/RecurringPayments.sol  (SubscriptionBiller)

Modelling conventions:
  * uint256 values are Nat; every Solidity 0.8 checked arithmetic operation
    that can overflow or underflow is guarded by an explicit comparison
    against UMAX = 2^256 (overflow) or against the subtrahend (underflow),
    and reverts with Err.panic exactly where Solidity would raise
    Panic(0x11).
  * Addresses are Nat; address(0) is 0; msg.sender is an explicit
    `caller` argument and block.timestamp an explicit `now` argument.
  * Reverts are the Except Err monad: `.error e` models a revert that
    discards every storage mutation of the current call atomically.
    Solidity distinguishes `Error(string)` reverts (from require) from
    custom errors and panics; this matters because the billing code uses
    `catch Error(string memory)`, which catches only the former.  The
    embedding keeps that distinction: require-style reverts are
    `Err.msg m` (one RevertMsg constructor per require string of the
    source), custom errors have their own constructors, and arithmetic
    panics are `Err.panic`.  `isStringError` mirrors `catch Error(string)`.
  * Storage mappings are total functions with the Solidity zero-value
    default, updated pointwise by `upd`.
  * keccak256(abi.encodePacked(allowanceId, recipient, amount, timestamp))
    is modelled injectively as the 4-tuple itself (structure TxHash), the
    usual collision-freeness assumption.
  * The $OPENWORK token is external to the repository (an IERC20); it is
    modelled from the spec's external asset-transfer interface (section 6):
    balances plus ERC-20 spending approvals, `transfer` / `transferFrom`
    returning `none` (leading the callers' `require(..., "...")` to revert)
    exactly when balance or approval is insufficient.
  * The Pausable / Ownable-constructor machinery is not modelled: all
    claims concern the unpaused behaviour of the contracts; `onlyOwner` on
    withdrawFees is kept via an explicit owner field.
  * OpenZeppelin's ReentrancyGuard IS modelled where it fires on a plain
    sequential execution: the biller's batchBilling is nonReentrant and,
    inside the loop, invokes `try this.processBilling(subIds[i])` as an
    EXTERNAL self-call; processBilling is also nonReentrant and the two
    share the contract's single _status slot, so every inner call hits the
    held guard and reverts with the require string
    "ReentrancyGuard: reentrant call" (RevertMsg.reentrantCall) before any
    billing is attempted.  `processBillingNR entered` is processBilling's
    guarded entry with `entered` the _status == _ENTERED flag at call time;
    top-level external calls (the step relations below) enter with the
    guard free.  No other function of the three contracts calls back into
    a nonReentrant entry of its own contract, so the guard never fires
    elsewhere and is elided there.
-/

namespace AgentFi

abbrev Addr := Nat

def UMAX : Nat := 2 ^ 256

/-- Pointwise update of a total-function store (a Solidity mapping). -/
def upd {κ α : Type} [DecidableEq κ] (f : κ → α) (k : κ) (v : α) : κ → α :=
  fun j => if j = k then v else f j

theorem upd_same {κ α : Type} [DecidableEq κ] (f : κ → α) (k : κ) (v : α) :
    upd f k v k = v := by
  simp [upd]

theorem upd_other {κ α : Type} [DecidableEq κ] (f : κ → α) (k j : κ) (v : α)
    (h : j ≠ k) : upd f k v j = f j := by
  simp [upd, h]

/-- Allowance periods (AgentAllowance.Period). -/
inductive Period where
  | daily
  | weekly
  | monthly
  deriving DecidableEq

/-- Billing intervals (RecurringPayments.Interval). -/
inductive Interval where
  | daily
  | weekly
  | monthly
  deriving DecidableEq

/-- Subscription states (RecurringPayments.SubState). -/
inductive SubState where
  | active
  | paused
  | cancelled
  | expired
  deriving DecidableEq

/-- Invoice states (InvoiceSettlement.InvoiceState). -/
inductive InvoiceState where
  | draft
  | sent
  | escrowed
  | paid
  | disputed
  | cancelled
  deriving DecidableEq

/-- Period duration in seconds, from AgentAllowance._shouldReset
(1 days / 7 days / 30 days). -/
def periodDuration : Period → Nat
  | .daily => 86400
  | .weekly => 604800
  | .monthly => 2592000

/-- Interval duration in seconds, from RecurringPayments._getIntervalDuration. -/
def getIntervalDuration : Interval → Nat
  | .daily => 86400
  | .weekly => 604800
  | .monthly => 2592000

/-- The argument tuple of keccak256(abi.encodePacked(allowanceId, recipient,
amount, block.timestamp)) in AgentAllowance.spend, modelling the hash
injectively. -/
structure TxHash where
  allowanceId : Nat
  recipient : Addr
  amount : Nat
  ts : Nat
  deriving DecidableEq

/-- One constructor per require(...) revert string of the three contracts;
these are the reverts Solidity encodes as Error(string). -/
inductive RevertMsg where
  | invalidAgent            -- "Invalid agent"
  | limitPositive           -- "Limit must be > 0"
  | invalidRecipient        -- "Invalid recipient"
  | transferFailed          -- "Transfer failed"
  | notOwner                -- "Not owner"
  | notOwnerOfAgent         -- "Not owner of any allowance for this agent"
  | invalidProvider         -- "Invalid provider"
  | cannotSubscribeSelf     -- "Cannot subscribe to self"
  | amountPositive          -- "Amount must be > 0"
  | allowanceInactive       -- "Allowance not active"
  | notYourAllowance        -- "Not your allowance"
  | notPaused               -- "Not paused"
  | invalidStateMsg         -- "Invalid state"
  | refundFailed            -- "Refund failed"
  | cannotInvoiceSelf       -- "Cannot invoice self"
  | notParty                -- "Not party to invoice"
  | needValidators          -- "Need validators"
  | alreadyResolved         -- "Already resolved"
  | notValidator            -- "Not validator"
  | payoutFailed            -- "Payout failed"
  | withdrawFailed          -- "Withdrawal failed"
  | invalidWithdrawAddr     -- "Invalid address"
  | reentrantCall           -- "ReentrancyGuard: reentrant call"
  deriving DecidableEq

/-- Revert reasons: custom errors of the three contracts, require-string
reverts (`msg`) and arithmetic panics (`panic`). -/
inductive Err where
  | panic
  | msg : RevertMsg → Err
  | allowanceNotActive : Nat → Err
  | unauthorizedSpender : Addr → Addr → Err
  | insufficientAllowance : Nat → Nat → Err
  | multiSigRequired : Nat → Nat → Err
  | invalidSigner : Addr → Err
  | alreadyApproved : TxHash → Addr → Err
  | invalidState : InvoiceState → InvoiceState → Err
  | unauthorized : Addr → Addr → Err
  | partNotAllowed : Nat → Err
  | invoiceOverpaid : Nat → Nat → Err
  | subscriptionNotActive : Nat → Err
  | tooManyFailures : Nat → Err
  deriving DecidableEq

/-- True exactly for the reverts that Solidity's `catch Error(string memory)`
clause catches. -/
def isStringError : Err → Bool
  | .msg _ => true
  | _ => false

/-- The external ERC-20 token ($OPENWORK).  Modelled from the spec: the
asset-transfer capability of section 6 is not part of this repository, so it
is given standard ERC-20 semantics: per-address balances and per
(owner, spender) approvals. -/
structure Token where
  balances : Addr → Nat
  allowanceOf : Addr → Addr → Nat

/-- ERC-20 transfer out of `src`'s own balance; `none` models a failed
transfer (the calling contracts wrap it in require). -/
def Token.transfer (t : Token) (src dst : Addr) (amt : Nat) : Option Token :=
  if amt ≤ t.balances src then
    let b1 := upd t.balances src (t.balances src - amt)
    some { t with balances := upd b1 dst (b1 dst + amt) }
  else none

/-- ERC-20 transferFrom executed by `spender`; fails if `src`'s balance or
the approval granted by `src` to `spender` is insufficient. -/
def Token.transferFrom (t : Token) (spender src dst : Addr) (amt : Nat) :
    Option Token :=
  if amt ≤ t.balances src ∧ amt ≤ t.allowanceOf src spender then
    let b1 := upd t.balances src (t.balances src - amt)
    some { balances := upd b1 dst (b1 dst + amt),
           allowanceOf := fun o s =>
             if o = src ∧ s = spender then t.allowanceOf o s - amt
             else t.allowanceOf o s }
  else none

/-- AgentAllowance.Allowance. -/
structure Allowance where
  owner : Addr
  agent : Addr
  limit : Nat
  period : Period
  spent : Nat
  lastReset : Nat
  rollover : Bool
  active : Bool
  deriving DecidableEq

/-- Solidity zero-value of an Allowance mapping slot. -/
def defaultAllowance : Allowance :=
  { owner := 0, agent := 0, limit := 0, period := .daily, spent := 0,
    lastReset := 0, rollover := false, active := false }

/-- AgentAllowance.MultiSigConfig. -/
structure MultiSigConfig where
  threshold : Nat
  signers : List Addr
  approvals : TxHash → Nat

/-- Solidity zero-value of a MultiSigConfig mapping slot. -/
def defaultMultiSig : MultiSigConfig :=
  { threshold := 0, signers := [], approvals := fun _ => 0 }

/-- RecurringPayments.Subscription. -/
structure Subscription where
  id : Nat
  subscriber : Addr
  provider : Addr
  amount : Nat
  interval : Interval
  state : SubState
  allowanceId : Nat
  createdAt : Nat
  nextBilling : Nat
  lastBilled : Nat
  failedBillings : Nat
  totalPaid : Nat
  deriving DecidableEq

/-- Solidity zero-value of a Subscription mapping slot. -/
def defaultSubscription : Subscription :=
  { id := 0, subscriber := 0, provider := 0, amount := 0, interval := .daily,
    state := .active, allowanceId := 0, createdAt := 0, nextBilling := 0,
    lastBilled := 0, failedBillings := 0, totalPaid := 0 }

/-- InvoiceSettlement.Invoice (partialPayment is written partPay because of
naming constraints of this development; it is the source's
`partialPayment` flag). -/
structure Invoice where
  id : Nat
  issuer : Addr
  recipient : Addr
  amount : Nat
  paidAmount : Nat
  state : InvoiceState
  createdAt : Nat
  dueDate : Nat
  description : String
  partPay : Bool
  deriving DecidableEq

/-- Solidity zero-value of an Invoice mapping slot. -/
def defaultInvoice : Invoice :=
  { id := 0, issuer := 0, recipient := 0, amount := 0, paidAmount := 0,
    state := .draft, createdAt := 0, dueDate := 0, description := "",
    partPay := false }

/-- InvoiceSettlement.Dispute. -/
structure Dispute where
  invoiceId : Nat
  initiator : Addr
  reason : String
  createdAt : Nat
  validators : List Addr
  validatorApprovals : Nat
  resolved : Bool
  deriving DecidableEq

/-- Solidity zero-value of a Dispute mapping slot. -/
def defaultDispute : Dispute :=
  { invoiceId := 0, initiator := 0, reason := "", createdAt := 0,
    validators := [], validatorApprovals := 0, resolved := false }

/-- Storage of the AgentAllowance contract. -/
structure AllowanceSt where
  allowanceIdCounter : Nat
  allowances : Nat → Allowance
  agentAllowances : Addr → List Nat
  multiSigConfigs : Addr → MultiSigConfig

/-- Storage of the RecurringPayments contract. -/
structure BillerSt where
  subscriptionIdCounter : Nat
  subscriptions : Nat → Subscription
  subscriberSubs : Addr → List Nat
  providerSubs : Addr → List Nat

/-- Storage of the InvoiceSettlement contract. -/
structure InvoiceSt where
  invoiceIdCounter : Nat
  invoices : Nat → Invoice
  issuedInvoices : Addr → List Nat
  receivedInvoices : Addr → List Nat
  disputes : Nat → Dispute
  escrowBalances : Nat → Nat
  collectedFees : Nat

/-- The whole system: the token plus the three contract storages, the three
contract addresses and the InvoiceSettlement deployer (its Ownable owner). -/
structure World where
  token : Token
  alw : AllowanceSt
  bill : BillerSt
  inv : InvoiceSt
  allowAddr : Addr
  billerAddr : Addr
  invoiceAddr : Addr
  invoiceOwner : Addr

def MAX_FAILED_BILLINGS : Nat := 3

def PLATFORM_FEE_BPS : Nat := 500

def BPS_DENOMINATOR : Nat := 10000

/-- AgentAllowance._shouldReset: elapsed = block.timestamp - lastReset
(checked subtraction), then compared with the period duration. -/
def shouldReset (a : Allowance) (now : Nat) : Except Err Bool :=
  if a.lastReset ≤ now then
    .ok (decide (periodDuration a.period ≤ now - a.lastReset))
  else .error .panic

/-- AgentAllowance.createAllowance. -/
def createAllowance (w : World) (caller : Addr) (now : Nat) (agent : Addr)
    (limit : Nat) (period : Period) (rollover : Bool) :
    Except Err (World × Nat) :=
  if agent = 0 then .error (.msg .invalidAgent)
  else if limit = 0 then .error (.msg .limitPositive)
  else if UMAX ≤ w.alw.allowanceIdCounter + 1 then .error .panic
  else
    let allowanceId := w.alw.allowanceIdCounter
    let a : Allowance :=
      { owner := caller, agent := agent, limit := limit, period := period,
        spent := 0, lastReset := now, rollover := rollover, active := true }
    let alw' : AllowanceSt :=
      { allowanceIdCounter := allowanceId + 1,
        allowances := upd w.alw.allowances allowanceId a,
        agentAllowances := upd w.alw.agentAllowances agent (w.alw.agentAllowances agent ++ [allowanceId]),
        multiSigConfigs := w.alw.multiSigConfigs }
    .ok ({ w with alw := alw' }, allowanceId)

/-- AgentAllowance.spend.  The caller is msg.sender; the period reset, the
available check, the multi-sig gate, the spent increment and the token
transferFrom happen in source order, any revert discarding everything. -/
def spend (w : World) (caller : Addr) (now : Nat) (allowanceId : Nat)
    (recipient : Addr) (amount : Nat) : Except Err World :=
  let a := w.alw.allowances allowanceId
  if a.active = false then .error (.allowanceNotActive allowanceId)
  else if caller ≠ a.agent then .error (.unauthorizedSpender caller a.agent)
  else if recipient = 0 then .error (.msg .invalidRecipient)
  else match shouldReset a now with
    | .error e => .error e
    | .ok sr =>
      let a1 := if sr then { a with spent := 0, lastReset := now } else a
      if a1.limit < a1.spent then .error .panic
      else
        let available := a1.limit - a1.spent
        if available < amount then .error (.insufficientAllowance amount available)
        else
          let cfg := w.alw.multiSigConfigs a.agent
          let txHash : TxHash :=
            { allowanceId := allowanceId, recipient := recipient, amount := amount, ts := now }
          if (cfg.threshold ≤ amount ∧ 0 < cfg.threshold) ∧ cfg.approvals txHash < cfg.signers.length then
            .error (.multiSigRequired amount cfg.threshold)
          else if UMAX ≤ a1.spent + amount then .error .panic
          else match w.token.transferFrom w.allowAddr a1.owner recipient amount with
            | none => .error (.msg .transferFailed)
            | some tk =>
              let alw' := { w.alw with allowances := upd w.alw.allowances allowanceId { a1 with spent := a1.spent + amount } }
              .ok { w with token := tk, alw := alw' }

/-- AgentAllowance.updateAllowance: owner-only, newLimit > 0; no check of
newLimit against the current spent. -/
def updateAllowance (w : World) (caller : Addr) (allowanceId : Nat)
    (newLimit : Nat) (newPeriod : Period) : Except Err World :=
  let a := w.alw.allowances allowanceId
  if caller ≠ a.owner then .error (.msg .notOwner)
  else if newLimit = 0 then .error (.msg .limitPositive)
  else
    let alw' := { w.alw with allowances := upd w.alw.allowances allowanceId { a with limit := newLimit, period := newPeriod } }
    .ok { w with alw := alw' }

/-- AgentAllowance.revokeAllowance: owner-only, sets active to false. -/
def revokeAllowance (w : World) (caller : Addr) (allowanceId : Nat) :
    Except Err World :=
  let a := w.alw.allowances allowanceId
  if caller ≠ a.owner then .error (.msg .notOwner)
  else
    let alw' := { w.alw with allowances := upd w.alw.allowances allowanceId { a with active := false } }
    .ok { w with alw := alw' }

/-- AgentAllowance.configureMultiSig: the caller must own at least one
allowance targeting the agent; threshold and signers are replaced, the
approvals mapping persists (a nested mapping is never cleared). -/
def configureMultiSig (w : World) (caller : Addr) (agent : Addr)
    (threshold : Nat) (signers : List Addr) : Except Err World :=
  let isOwner := (w.alw.agentAllowances agent).any (fun i => (w.alw.allowances i).owner == caller)
  if isOwner = false then .error (.msg .notOwnerOfAgent)
  else
    let cfg := w.alw.multiSigConfigs agent
    let alw' := { w.alw with multiSigConfigs := upd w.alw.multiSigConfigs agent { cfg with threshold := threshold, signers := signers } }
    .ok { w with alw := alw' }

/-- AgentAllowance.approveTransaction: signer-only; reverts AlreadyApproved
as soon as any one approval exists for the hash.  The checked increment
cannot overflow here because the stored count is provably 0 on this path. -/
def approveTransaction (w : World) (caller : Addr) (txHash : TxHash)
    (agent : Addr) : Except Err World :=
  let cfg := w.alw.multiSigConfigs agent
  if caller ∈ cfg.signers then
    if 0 < cfg.approvals txHash then .error (.alreadyApproved txHash caller)
    else
      let alw' := { w.alw with multiSigConfigs := upd w.alw.multiSigConfigs agent { cfg with approvals := upd cfg.approvals txHash (cfg.approvals txHash + 1) } }
      .ok { w with alw := alw' }
  else .error (.invalidSigner caller)

/-- AgentAllowance.getRemainingAllowance (view): 0 if inactive, the full
limit if a reset is due, otherwise limit - spent (checked subtraction). -/
def getRemainingAllowance (w : World) (now : Nat) (allowanceId : Nat) :
    Except Err Nat :=
  let a := w.alw.allowances allowanceId
  if a.active = false then .ok 0
  else match shouldReset a now with
    | .error e => .error e
    | .ok sr =>
      if sr then .ok a.limit
      else if a.spent ≤ a.limit then .ok (a.limit - a.spent)
      else .error .panic

/-- InvoiceSettlement._settle: fee = escrow * 500 / 10000, payout = rest;
escrow zeroed, fee accrued, state PAID, payout transferred to the issuer.
The storage writes precede the transfer in the source; a failed transfer
reverts them all. -/
def settle (w : World) (invoiceId : Nat) : Except Err World :=
  let v := w.inv.invoices invoiceId
  let escrow := w.inv.escrowBalances invoiceId
  if UMAX ≤ escrow * PLATFORM_FEE_BPS then .error .panic
  else
    let platformFee := escrow * PLATFORM_FEE_BPS / BPS_DENOMINATOR
    if escrow < platformFee then .error .panic
    else
      let payoutAmount := escrow - platformFee
      if UMAX ≤ w.inv.collectedFees + platformFee then .error .panic
      else
        let inv' := { w.inv with escrowBalances := upd w.inv.escrowBalances invoiceId 0, invoices := upd w.inv.invoices invoiceId { v with state := .paid }, collectedFees := w.inv.collectedFees + platformFee }
        match w.token.transfer w.invoiceAddr v.issuer payoutAmount with
        | none => .error (.msg .payoutFailed)
        | some tk => .ok { w with token := tk, inv := inv' }

/-- InvoiceSettlement.createInvoice. -/
def createInvoice (w : World) (caller : Addr) (now : Nat) (recipient : Addr)
    (amount : Nat) (description : String) (dueDate : Nat) (partPay : Bool) :
    Except Err (World × Nat) :=
  if recipient = 0 then .error (.msg .invalidRecipient)
  else if recipient = caller then .error (.msg .cannotInvoiceSelf)
  else if amount = 0 then .error (.msg .amountPositive)
  else if UMAX ≤ w.inv.invoiceIdCounter + 1 then .error .panic
  else
    let invoiceId := w.inv.invoiceIdCounter
    let v : Invoice :=
      { id := invoiceId, issuer := caller, recipient := recipient,
        amount := amount, paidAmount := 0, state := .draft, createdAt := now,
        dueDate := dueDate, description := description, partPay := partPay }
    let inv' : InvoiceSt :=
      { invoiceIdCounter := invoiceId + 1,
        invoices := upd w.inv.invoices invoiceId v,
        issuedInvoices := upd w.inv.issuedInvoices caller (w.inv.issuedInvoices caller ++ [invoiceId]),
        receivedInvoices := upd w.inv.receivedInvoices recipient (w.inv.receivedInvoices recipient ++ [invoiceId]),
        disputes := w.inv.disputes,
        escrowBalances := w.inv.escrowBalances,
        collectedFees := w.inv.collectedFees }
    .ok ({ w with inv := inv' }, invoiceId)

/-- InvoiceSettlement.sendInvoice: issuer-only, DRAFT to SENT. -/
def sendInvoice (w : World) (caller : Addr) (invoiceId : Nat) :
    Except Err World :=
  let v := w.inv.invoices invoiceId
  if caller ≠ v.issuer then .error (.unauthorized caller v.issuer)
  else if v.state ≠ .draft then .error (.invalidState v.state .draft)
  else
    let inv' := { w.inv with invoices := upd w.inv.invoices invoiceId { v with state := .sent } }
    .ok { w with inv := inv' }

/-- InvoiceSettlement.payInvoice: recipient-only, SENT or ESCROWED;
partial-payment and overpay checks, transfer into escrow, then settlement
when fully paid. -/
def payInvoice (w : World) (caller : Addr) (invoiceId : Nat) (amount : Nat) :
    Except Err World :=
  let v := w.inv.invoices invoiceId
  if caller ≠ v.recipient then .error (.unauthorized caller v.recipient)
  else if v.state ≠ .sent ∧ v.state ≠ .escrowed then .error (.invalidState v.state .sent)
  else if amount = 0 then .error (.msg .amountPositive)
  else if v.amount < v.paidAmount then .error .panic
  else
    let remaining := v.amount - v.paidAmount
    if amount < remaining ∧ v.partPay = false then .error (.partNotAllowed invoiceId)
    else if remaining < amount then
      if UMAX ≤ v.paidAmount + amount then .error .panic
      else .error (.invoiceOverpaid (v.paidAmount + amount) v.amount)
    else match w.token.transferFrom w.invoiceAddr caller w.invoiceAddr amount with
      | none => .error (.msg .transferFailed)
      | some tk =>
        if UMAX ≤ w.inv.escrowBalances invoiceId + amount then .error .panic
        else if UMAX ≤ v.paidAmount + amount then .error .panic
        else
          let paid' := v.paidAmount + amount
          let state' := if v.state = .sent then InvoiceState.escrowed else v.state
          let inv' := { w.inv with escrowBalances := upd w.inv.escrowBalances invoiceId (w.inv.escrowBalances invoiceId + amount), invoices := upd w.inv.invoices invoiceId { v with paidAmount := paid', state := state' } }
          let w1 := { w with token := tk, inv := inv' }
          if v.amount ≤ paid' then settle w1 invoiceId
          else .ok w1

/-- InvoiceSettlement.cancelInvoice: issuer-only, DRAFT or SENT to CANCELLED. -/
def cancelInvoice (w : World) (caller : Addr) (invoiceId : Nat) :
    Except Err World :=
  let v := w.inv.invoices invoiceId
  if caller ≠ v.issuer then .error (.unauthorized caller v.issuer)
  else if v.state ≠ .draft ∧ v.state ≠ .sent then .error (.invalidState v.state .draft)
  else
    let inv' := { w.inv with invoices := upd w.inv.invoices invoiceId { v with state := .cancelled } }
    .ok { w with inv := inv' }

/-- InvoiceSettlement.raiseDispute: a party of an ESCROWED invoice opens a
dispute with a non-empty validator list. -/
def raiseDispute (w : World) (caller : Addr) (now : Nat) (invoiceId : Nat)
    (reason : String) (validators : List Addr) : Except Err World :=
  let v := w.inv.invoices invoiceId
  if caller ≠ v.issuer ∧ caller ≠ v.recipient then .error (.msg .notParty)
  else if v.state ≠ .escrowed then .error (.invalidState v.state .escrowed)
  else if validators = [] then .error (.msg .needValidators)
  else
    let d : Dispute :=
      { invoiceId := invoiceId, initiator := caller, reason := reason,
        createdAt := now, validators := validators, validatorApprovals := 0,
        resolved := false }
    let inv' := { w.inv with invoices := upd w.inv.invoices invoiceId { v with state := .disputed }, disputes := upd w.inv.disputes invoiceId d }
    .ok { w with inv := inv' }

/-- InvoiceSettlement.resolveDispute: validator-only, votes are not
deduplicated; below the majority the call just records the vote; the vote
reaching floor(n/2)+1 finalizes (full refund and CANCELLED, or settlement). -/
def resolveDispute (w : World) (caller : Addr) (invoiceId : Nat)
    (refund : Bool) : Except Err World :=
  let d := w.inv.disputes invoiceId
  let v := w.inv.invoices invoiceId
  if d.resolved then .error (.msg .alreadyResolved)
  else if caller ∈ d.validators then
    if UMAX ≤ d.validatorApprovals + 1 then .error .panic
    else
      let ap := d.validatorApprovals + 1
      let requiredApprovals := d.validators.length / 2 + 1
      if ap < requiredApprovals then
        let inv' := { w.inv with disputes := upd w.inv.disputes invoiceId { d with validatorApprovals := ap } }
        .ok { w with inv := inv' }
      else
        let d' := { d with validatorApprovals := ap, resolved := true }
        if refund then
          let escrow := w.inv.escrowBalances invoiceId
          match w.token.transfer w.invoiceAddr v.recipient escrow with
          | none => .error (.msg .refundFailed)
          | some tk =>
            let inv' := { w.inv with disputes := upd w.inv.disputes invoiceId d', escrowBalances := upd w.inv.escrowBalances invoiceId 0, invoices := upd w.inv.invoices invoiceId { v with state := .cancelled } }
            .ok { w with token := tk, inv := inv' }
        else
          let w1 := { w with inv := { w.inv with disputes := upd w.inv.disputes invoiceId d' } }
          settle w1 invoiceId
  else .error (.msg .notValidator)

/-- InvoiceSettlement.withdrawFees: deployer-only; transfers the collected
fees out of the contract. -/
def withdrawFees (w : World) (caller : Addr) (dst : Addr) : Except Err World :=
  if caller ≠ w.invoiceOwner then .error (.unauthorized caller w.invoiceOwner)
  else if dst = 0 then .error (.msg .invalidWithdrawAddr)
  else
    let amount := w.inv.collectedFees
    let inv' := { w.inv with collectedFees := 0 }
    match w.token.transfer w.invoiceAddr dst amount with
    | none => .error (.msg .withdrawFailed)
    | some tk => .ok { w with token := tk, inv := inv' }

/-- RecurringPayments._attemptBilling.  Not-yet-due returns silently; the
allowance query and a custom-error or panic revert of the nested spend
bubble up (only Error(string) reverts are caught); an insufficient
allowance or a caught spend failure increments failedBillings and expires
the subscription at MAX_FAILED_BILLINGS; a successful spend resets the
failure counter and reschedules from block.timestamp. -/
def attemptBilling (w : World) (now : Nat) (subId : Nat) : Except Err World :=
  let sub := w.bill.subscriptions subId
  if sub.state ≠ .active then .error (.subscriptionNotActive subId)
  else if now < sub.nextBilling then .ok w
  else if MAX_FAILED_BILLINGS ≤ sub.failedBillings then .error (.tooManyFailures sub.failedBillings)
  else match getRemainingAllowance w now sub.allowanceId with
    | .error e => .error e
    | .ok remaining =>
      if remaining < sub.amount then
        let fb := sub.failedBillings + 1
        let sub' := { sub with failedBillings := fb, state := if MAX_FAILED_BILLINGS ≤ fb then SubState.expired else sub.state }
        .ok { w with bill := { w.bill with subscriptions := upd w.bill.subscriptions subId sub' } }
      else match spend w w.billerAddr now sub.allowanceId sub.provider sub.amount with
        | .ok w2 =>
          let sub2 := w2.bill.subscriptions subId
          if UMAX ≤ now + getIntervalDuration sub2.interval then .error .panic
          else if UMAX ≤ sub2.totalPaid + sub2.amount then .error .panic
          else
            let sub' := { sub2 with lastBilled := now, nextBilling := now + getIntervalDuration sub2.interval, failedBillings := 0, totalPaid := sub2.totalPaid + sub2.amount }
            .ok { w2 with bill := { w2.bill with subscriptions := upd w2.bill.subscriptions subId sub' } }
        | .error e =>
          if isStringError e then
            let fb := sub.failedBillings + 1
            let sub' := { sub with failedBillings := fb, state := if MAX_FAILED_BILLINGS ≤ fb then SubState.expired else sub.state }
            .ok { w with bill := { w.bill with subscriptions := upd w.bill.subscriptions subId sub' } }
          else .error e

/-- RecurringPayments.processBilling as reached by a top-level external
call: the nonReentrant modifier's require passes (the guard starts free)
and the body runs _attemptBilling. -/
def processBilling (w : World) (now : Nat) (subId : Nat) : Except Err World :=
  attemptBilling w now subId

/-- The nonReentrant external entry of RecurringPayments.processBilling:
`entered` is the biller's ReentrancyGuard status (_status == _ENTERED) at
call time.  The modifier first requires the guard to be free — reverting
with the require string "ReentrancyGuard: reentrant call" otherwise — and
only then runs the body. -/
def processBillingNR (entered : Bool) (w : World) (now : Nat) (subId : Nat) :
    Except Err World :=
  if entered = true then .error (.msg .reentrantCall)
  else processBilling w now subId

/-- RecurringPayments.subscribe: validates the provider and the caller's
allowance, creates the ACTIVE subscription due one interval from now, then
attempts an immediate first billing. -/
def subscribe (w : World) (caller : Addr) (now : Nat) (provider : Addr)
    (amount : Nat) (interval : Interval) (allowanceId : Nat) :
    Except Err (World × Nat) :=
  if provider = 0 then .error (.msg .invalidProvider)
  else if provider = caller then .error (.msg .cannotSubscribeSelf)
  else if amount = 0 then .error (.msg .amountPositive)
  else
    let a := w.alw.allowances allowanceId
    if a.active = false then .error (.msg .allowanceInactive)
    else if a.agent ≠ caller then .error (.msg .notYourAllowance)
    else if UMAX ≤ w.bill.subscriptionIdCounter + 1 then .error .panic
    else if UMAX ≤ now + getIntervalDuration interval then .error .panic
    else
      let subId := w.bill.subscriptionIdCounter
      let sub : Subscription :=
        { id := subId, subscriber := caller, provider := provider,
          amount := amount, interval := interval, state := .active,
          allowanceId := allowanceId, createdAt := now,
          nextBilling := now + getIntervalDuration interval, lastBilled := 0,
          failedBillings := 0, totalPaid := 0 }
      let bill' : BillerSt :=
        { subscriptionIdCounter := subId + 1,
          subscriptions := upd w.bill.subscriptions subId sub,
          subscriberSubs := upd w.bill.subscriberSubs caller (w.bill.subscriberSubs caller ++ [subId]),
          providerSubs := upd w.bill.providerSubs provider (w.bill.providerSubs provider ++ [subId]) }
      match attemptBilling { w with bill := bill' } now subId with
      | .error e => .error e
      | .ok w2 => .ok (w2, subId)

/-- RecurringPayments.pauseSubscription: subscriber-only, ACTIVE to PAUSED. -/
def pauseSubscription (w : World) (caller : Addr) (subId : Nat) :
    Except Err World :=
  let sub := w.bill.subscriptions subId
  if caller ≠ sub.subscriber then .error (.unauthorized caller sub.subscriber)
  else if sub.state ≠ .active then .error (.subscriptionNotActive subId)
  else
    let bill' := { w.bill with subscriptions := upd w.bill.subscriptions subId { sub with state := .paused } }
    .ok { w with bill := bill' }

/-- RecurringPayments.resumeSubscription: subscriber-only, PAUSED to ACTIVE,
rescheduling one interval from now. -/
def resumeSubscription (w : World) (caller : Addr) (now : Nat) (subId : Nat) :
    Except Err World :=
  let sub := w.bill.subscriptions subId
  if caller ≠ sub.subscriber then .error (.unauthorized caller sub.subscriber)
  else if sub.state ≠ .paused then .error (.msg .notPaused)
  else if UMAX ≤ now + getIntervalDuration sub.interval then .error .panic
  else
    let bill' := { w.bill with subscriptions := upd w.bill.subscriptions subId { sub with state := .active, nextBilling := now + getIntervalDuration sub.interval } }
    .ok { w with bill := bill' }

/-- RecurringPayments.cancelSubscription: subscriber-only, ACTIVE or PAUSED;
pays a prorated refund out of the biller's own token balance when the last
billing lies strictly inside the current interval, then CANCELLED. -/
def cancelSubscription (w : World) (caller : Addr) (now : Nat) (subId : Nat) :
    Except Err World :=
  let sub := w.bill.subscriptions subId
  if caller ≠ sub.subscriber then .error (.unauthorized caller sub.subscriber)
  else if sub.state ≠ .active ∧ sub.state ≠ .paused then .error (.msg .invalidStateMsg)
  else
    let bill' := { w.bill with subscriptions := upd w.bill.subscriptions subId { sub with state := .cancelled } }
    if sub.lastBilled = 0 then .ok { w with bill := bill' }
    else if now < sub.lastBilled then .error .panic
    else
      let intervalDur := getIntervalDuration sub.interval
      let elapsed := now - sub.lastBilled
      if elapsed < intervalDur then
        if UMAX ≤ sub.amount * (intervalDur - elapsed) then .error .panic
        else
          let refund := sub.amount * (intervalDur - elapsed) / intervalDur
          if 0 < refund then
            match w.token.transfer w.billerAddr sub.subscriber refund with
            | none => .error (.msg .refundFailed)
            | some tk => .ok { w with token := tk, bill := bill' }
          else .ok { w with bill := bill' }
      else .ok { w with bill := bill' }

/-- RecurringPayments.batchBilling, called top-level (its own nonReentrant
check passes and then HOLDS the guard for the whole loop).  Each iteration
runs `try this.processBilling(subIds[i])` — an external self-call, so it
re-enters through the nonReentrant entry with the guard already held
(processBillingNR true) — wrapped in a bare catch, so a failing id is
skipped with the state of its attempt discarded and the loop continues;
the batch itself has no revert path. -/
def batchBilling (now : Nat) : World → List Nat → Except Err World
  | w, [] => .ok w
  | w, subId :: rest =>
    match processBillingNR true w now subId with
    | .ok w2 => batchBilling now w2 rest
    | .error _ => batchBilling now w rest

/-- Deployment storage of AgentAllowance: counter 0 and all mapping slots at
their Solidity zero-values. -/
def initAllowanceSt : AllowanceSt :=
  { allowanceIdCounter := 0, allowances := fun _ => defaultAllowance,
    agentAllowances := fun _ => [], multiSigConfigs := fun _ => defaultMultiSig }

/-- Deployment storage of RecurringPayments. -/
def initBillerSt : BillerSt :=
  { subscriptionIdCounter := 0, subscriptions := fun _ => defaultSubscription,
    subscriberSubs := fun _ => [], providerSubs := fun _ => [] }

/-- Deployment storage of InvoiceSettlement. -/
def initInvoiceSt : InvoiceSt :=
  { invoiceIdCounter := 0, invoices := fun _ => defaultInvoice,
    issuedInvoices := fun _ => [], receivedInvoices := fun _ => [],
    disputes := fun _ => defaultDispute, escrowBalances := fun _ => 0,
    collectedFees := 0 }

/-- A freshly deployed system: all three contract storages at their
deployment values (token balances, approvals and addresses arbitrary). -/
def FullInit (w : World) : Prop :=
  w.alw = initAllowanceSt ∧ w.bill = initBillerSt ∧ w.inv = initInvoiceSt

/-- One successful external call to any public state-mutating operation of
the three contracts, by an arbitrary caller at an arbitrary time. -/
inductive FullStep : World → World → Prop where
  | create (w : World) (caller : Addr) (now : Nat) (agent : Addr) (limit : Nat)
      (period : Period) (ro : Bool) (res : World × Nat)
      (h : createAllowance w caller now agent limit period ro = .ok res) :
      FullStep w res.1
  | spendS (w : World) (caller : Addr) (now : Nat) (allowanceId : Nat)
      (recipient : Addr) (amount : Nat) (w' : World)
      (h : spend w caller now allowanceId recipient amount = .ok w') :
      FullStep w w'
  | update (w : World) (caller : Addr) (allowanceId newLimit : Nat)
      (newPeriod : Period) (w' : World)
      (h : updateAllowance w caller allowanceId newLimit newPeriod = .ok w') :
      FullStep w w'
  | revoke (w : World) (caller : Addr) (allowanceId : Nat) (w' : World)
      (h : revokeAllowance w caller allowanceId = .ok w') : FullStep w w'
  | configMS (w : World) (caller agent : Addr) (threshold : Nat)
      (signers : List Addr) (w' : World)
      (h : configureMultiSig w caller agent threshold signers = .ok w') :
      FullStep w w'
  | approve (w : World) (caller : Addr) (txHash : TxHash) (agent : Addr)
      (w' : World) (h : approveTransaction w caller txHash agent = .ok w') :
      FullStep w w'
  | invCreate (w : World) (caller : Addr) (now : Nat) (recipient : Addr)
      (amount : Nat) (description : String) (dueDate : Nat) (pp : Bool)
      (res : World × Nat)
      (h : createInvoice w caller now recipient amount description dueDate pp = .ok res) :
      FullStep w res.1
  | invSend (w : World) (caller : Addr) (invoiceId : Nat) (w' : World)
      (h : sendInvoice w caller invoiceId = .ok w') : FullStep w w'
  | invPay (w : World) (caller : Addr) (invoiceId amount : Nat) (w' : World)
      (h : payInvoice w caller invoiceId amount = .ok w') : FullStep w w'
  | invCancel (w : World) (caller : Addr) (invoiceId : Nat) (w' : World)
      (h : cancelInvoice w caller invoiceId = .ok w') : FullStep w w'
  | invDispute (w : World) (caller : Addr) (now : Nat) (invoiceId : Nat)
      (reason : String) (validators : List Addr) (w' : World)
      (h : raiseDispute w caller now invoiceId reason validators = .ok w') :
      FullStep w w'
  | invResolve (w : World) (caller : Addr) (invoiceId : Nat) (refund : Bool)
      (w' : World) (h : resolveDispute w caller invoiceId refund = .ok w') :
      FullStep w w'
  | invWithdraw (w : World) (caller dst : Addr) (w' : World)
      (h : withdrawFees w caller dst = .ok w') : FullStep w w'
  | subNew (w : World) (caller : Addr) (now : Nat) (provider : Addr)
      (amount : Nat) (interval : Interval) (allowanceId : Nat)
      (res : World × Nat)
      (h : subscribe w caller now provider amount interval allowanceId = .ok res) :
      FullStep w res.1
  | subBill (w : World) (now subId : Nat) (w' : World)
      (h : processBilling w now subId = .ok w') : FullStep w w'
  | subBatch (w : World) (now : Nat) (subIds : List Nat) (w' : World)
      (h : batchBilling now w subIds = .ok w') : FullStep w w'
  | subPause (w : World) (caller : Addr) (subId : Nat) (w' : World)
      (h : pauseSubscription w caller subId = .ok w') : FullStep w w'
  | subResume (w : World) (caller : Addr) (now subId : Nat) (w' : World)
      (h : resumeSubscription w caller now subId = .ok w') : FullStep w w'
  | subCancel (w : World) (caller : Addr) (now subId : Nat) (w' : World)
      (h : cancelSubscription w caller now subId = .ok w') : FullStep w w'

/-- Reachability through successful public calls from a given start state. -/
def Reachable (w0 w : World) : Prop := Relation.ReflTransGen FullStep w0 w

/-- One successful external call to a SubscriptionBiller operation only.
The biller contract never calls its own external entry points (batchBilling
self-calls processBilling, which ignores msg.sender), so external callers
are distinct from the biller's own address. -/
inductive BillerStep : World → World → Prop where
  | subNew (w : World) (caller : Addr) (now : Nat) (provider : Addr)
      (amount : Nat) (interval : Interval) (allowanceId : Nat)
      (res : World × Nat) (hc : caller ≠ w.billerAddr)
      (h : subscribe w caller now provider amount interval allowanceId = .ok res) :
      BillerStep w res.1
  | subBill (w : World) (now subId : Nat) (w' : World)
      (h : processBilling w now subId = .ok w') : BillerStep w w'
  | subBatch (w : World) (now : Nat) (subIds : List Nat) (w' : World)
      (h : batchBilling now w subIds = .ok w') : BillerStep w w'
  | subPause (w : World) (caller : Addr) (subId : Nat) (w' : World)
      (h : pauseSubscription w caller subId = .ok w') : BillerStep w w'
  | subResume (w : World) (caller : Addr) (now subId : Nat) (w' : World)
      (h : resumeSubscription w caller now subId = .ok w') : BillerStep w w'
  | subCancel (w : World) (caller : Addr) (now subId : Nat) (w' : World)
      (h : cancelSubscription w caller now subId = .ok w') : BillerStep w w'

/-- Start states for claim C10: the biller storage as deployed and the
biller contract holding no tokens (no external funding of the component). -/
def BillerInit (w : World) : Prop :=
  w.bill = initBillerSt ∧ w.token.balances w.billerAddr = 0

/-- Reachability through the biller's operations alone. -/
def BillerReachable (w0 w : World) : Prop :=
  Relation.ReflTransGen BillerStep w0 w

/-- The prorated refund that cancelSubscription computes for a subscription
at time `now` (RecurringPayments.cancelSubscription lines 239-254). -/
def proratedRefund (sub : Subscription) (now : Nat) : Nat :=
  if sub.lastBilled = 0 then 0
  else
    let intervalDur := getIntervalDuration sub.interval
    let elapsed := now - sub.lastBilled
    if elapsed < intervalDur then sub.amount * (intervalDur - elapsed) / intervalDur
    else 0

/-- Extract the success state of an Except-valued call, with a fallback. -/
def okOr (r : Except Err World) (d : World) : World :=
  match r with
  | .ok w => w
  | .error _ => d

/-- Extract the success state of an id-returning call, with a fallback. -/
def okOr2 (r : Except Err (World × Nat)) (d : World) : World :=
  match r with
  | .ok p => p.1
  | .error _ => d

/-- A successful spend leaves the touched allowance with spent at most
limit: the success path requires spent ≤ limit (the checked subtraction)
and amount ≤ limit - spent, for the post-reset spent. -/
theorem spend_ok_le (w : World) (caller : Addr) (now allowanceId : Nat)
    (recipient : Addr) (amount : Nat) (w' : World)
    (h : spend w caller now allowanceId recipient amount = .ok w') :
    (w'.alw.allowances allowanceId).spent ≤ (w'.alw.allowances allowanceId).limit := by
  simp only [spend] at h
  repeat' (split at h)
  all_goals try (cases h)
  all_goals (simp_all [upd]; try omega)

/-- A fixed external environment for the concrete scenarios: owner 10 holds
1000 tokens and has approved the AgentAllowance contract (address 1). -/
def testToken : Token :=
  { balances := fun a => if a = 10 then 1000 else 0,
    allowanceOf := fun o s => if o = 10 ∧ s = 1 then 1000 else 0 }

/-- A freshly deployed system over testToken; the three contracts live at
addresses 1 (AgentAllowance), 2 (RecurringPayments), 3 (InvoiceSettlement). -/
def baseWorld : World :=
  { token := testToken, alw := initAllowanceSt, bill := initBillerSt,
    inv := initInvoiceSt, allowAddr := 1, billerAddr := 2, invoiceAddr := 3,
    invoiceOwner := 9 }

def c1w1 : World := okOr2 (createAllowance baseWorld 10 0 20 100 .daily false) baseWorld

def c1w2 : World := okOr (spend c1w1 20 0 0 30 100) baseWorld

def c1w3 : World := okOr (updateAllowance c1w2 10 0 50 .daily) baseWorld

/-- Claim C1, counterexample: owner 10 creates allowance 0 with limit 100
for agent 20, the agent spends the full 100, then the owner lowers the
limit to 50.  updateAllowance succeeds (it never checks the new limit
against spent) and leaves the allowance with spent = 100 > limit = 50, so
the invariant spent ≤ limit does not hold immediately after every
successful state-mutating operation. -/
theorem claim_C1_counterexample :
    createAllowance baseWorld 10 0 20 100 Period.daily false = .ok (c1w1, 0) ∧
    spend c1w1 20 0 0 30 100 = .ok c1w2 ∧
    updateAllowance c1w2 10 0 50 Period.daily = .ok c1w3 ∧
    (c1w3.alw.allowances 0).limit < (c1w3.alw.allowances 0).spent := by
  refine ⟨rfl, rfl, rfl, ?_⟩
  decide

/-- Claim C1 (amended): immediately after a successful createAllowance or
spend the affected allowance satisfies spent ≤ limit, and revokeAllowance
leaves both spent and limit unchanged (hence preserves the invariant);
updateAllowance, which performs no validation of the new limit against the
current spent, can violate the invariant (claim_C1_counterexample). -/
theorem claim_C1_amended :
    (∀ w caller now agent limit period ro res,
        createAllowance w caller now agent limit period ro = .ok res →
        (res.1.alw.allowances res.2).spent ≤ (res.1.alw.allowances res.2).limit) ∧
    (∀ w caller now allowanceId recipient amount w',
        spend w caller now allowanceId recipient amount = .ok w' →
        (w'.alw.allowances allowanceId).spent ≤ (w'.alw.allowances allowanceId).limit) ∧
    (∀ w caller allowanceId w',
        revokeAllowance w caller allowanceId = .ok w' →
        (w'.alw.allowances allowanceId).spent = (w.alw.allowances allowanceId).spent ∧
        (w'.alw.allowances allowanceId).limit = (w.alw.allowances allowanceId).limit) := by
  refine ⟨?_, ?_, ?_⟩
  · intro w caller now agent limit period ro res h
    simp only [createAllowance] at h
    repeat' (split at h)
    all_goals try (cases h)
    all_goals (simp_all [upd])
  · intro w caller now allowanceId recipient amount w' h
    exact spend_ok_le w caller now allowanceId recipient amount w' h
  · intro w caller allowanceId w' h
    simp only [revokeAllowance] at h
    repeat' (split at h)
    all_goals try (cases h)
    all_goals (simp_all [upd])

/-- Claim C1 (amended), witness: the amended statement applied to the
concrete scenario of the counterexample chain (create, spend, revoke). -/
theorem claim_C1_amended_witness :
    (c1w1.alw.allowances 0).spent ≤ (c1w1.alw.allowances 0).limit ∧
    (c1w2.alw.allowances 0).spent ≤ (c1w2.alw.allowances 0).limit ∧
    ((okOr (revokeAllowance c1w2 10 0) baseWorld).alw.allowances 0).spent = (c1w2.alw.allowances 0).spent ∧
    ((okOr (revokeAllowance c1w2 10 0) baseWorld).alw.allowances 0).limit = (c1w2.alw.allowances 0).limit := by
  refine ⟨?_, ?_, ?_, ?_⟩
  · exact claim_C1_amended.1 baseWorld 10 0 20 100 .daily false (c1w1, 0) rfl
  · exact claim_C1_amended.2.1 c1w1 20 0 0 30 100 c1w2 rfl
  · exact (claim_C1_amended.2.2 c1w2 10 0 (okOr (revokeAllowance c1w2 10 0) baseWorld) rfl).1
  · exact (claim_C1_amended.2.2 c1w2 10 0 (okOr (revokeAllowance c1w2 10 0) baseWorld) rfl).2

/-- Claim C5: a completed settlement of an invoice with escrow balance e
pays exactly e - floor(e*500/10000) to the issuer, accrues exactly
floor(e*500/10000) to the collected platform fees, the two amounts sum to
e, the escrow balance becomes zero and the invoice state becomes PAID.
(The issuer is taken distinct from the escrow contract itself so that the
payout is visible as a balance increase.) -/
theorem claim_C5 (w : World) (invoiceId : Nat) (w' : World)
    (h : settle w invoiceId = .ok w')
    (hissuer : (w.inv.invoices invoiceId).issuer ≠ w.invoiceAddr) :
    w'.token.balances (w.inv.invoices invoiceId).issuer
      = w.token.balances (w.inv.invoices invoiceId).issuer
        + (w.inv.escrowBalances invoiceId
           - w.inv.escrowBalances invoiceId * PLATFORM_FEE_BPS / BPS_DENOMINATOR) ∧
    w'.inv.collectedFees
      = w.inv.collectedFees
        + w.inv.escrowBalances invoiceId * PLATFORM_FEE_BPS / BPS_DENOMINATOR ∧
    (w.inv.escrowBalances invoiceId
       - w.inv.escrowBalances invoiceId * PLATFORM_FEE_BPS / BPS_DENOMINATOR)
      + w.inv.escrowBalances invoiceId * PLATFORM_FEE_BPS / BPS_DENOMINATOR
      = w.inv.escrowBalances invoiceId ∧
    w'.inv.escrowBalances invoiceId = 0 ∧
    (w'.inv.invoices invoiceId).state = InvoiceState.paid := by
  simp only [settle] at h
  repeat' (split at h)
  all_goals try (cases h)
  all_goals
    (rename_i htr
     simp only [Token.transfer] at htr
     split at htr
     · injection htr with htr
       subst htr
       refine ⟨?_, ?_, ?_, ?_, ?_⟩ <;> simp_all [upd] <;> omega
     · cases htr)

def c5w : World :=
  { baseWorld with
    token := { balances := fun a => if a = 3 then 100 else 0, allowanceOf := fun _ _ => 0 },
    inv := { initInvoiceSt with
      invoices := upd (fun _ => defaultInvoice) 0 { defaultInvoice with id := 0, issuer := 10, recipient := 20, amount := 100, paidAmount := 100, state := .escrowed },
      escrowBalances := upd (fun _ => 0) 0 100 } }

def c5wFinal : World := okOr (settle c5w 0) c5w

/-- Claim C5, witness: settling the concrete invoice 0 with escrow 100 pays
95 to issuer 10, adds 5 to the fee pool, zeroes the escrow and marks the
invoice PAID. -/
theorem claim_C5_witness :
    c5wFinal.token.balances (c5w.inv.invoices 0).issuer
      = c5w.token.balances (c5w.inv.invoices 0).issuer
        + (c5w.inv.escrowBalances 0
           - c5w.inv.escrowBalances 0 * PLATFORM_FEE_BPS / BPS_DENOMINATOR) ∧
    c5wFinal.inv.collectedFees
      = c5w.inv.collectedFees
        + c5w.inv.escrowBalances 0 * PLATFORM_FEE_BPS / BPS_DENOMINATOR ∧
    (c5w.inv.escrowBalances 0
       - c5w.inv.escrowBalances 0 * PLATFORM_FEE_BPS / BPS_DENOMINATOR)
      + c5w.inv.escrowBalances 0 * PLATFORM_FEE_BPS / BPS_DENOMINATOR
      = c5w.inv.escrowBalances 0 ∧
    c5wFinal.inv.escrowBalances 0 = 0 ∧
    (c5wFinal.inv.invoices 0).state = InvoiceState.paid :=
  claim_C5 c5w 0 c5wFinal rfl (by decide)

/-- Claim C6: for an invoice in state SENT or ESCROWED with
remaining = amount - paidAmount, a positive payment by the recipient
reverts PartialPaymentsNotAllowed when it is below remaining with partial
payments disabled, and reverts InvoiceOverpaid when it exceeds remaining;
being reverts, both leave paidAmount, the escrow balance and the state
untouched (the .error result discards all mutations of the call). -/
theorem claim_C6 (w : World) (caller : Addr) (invoiceId amount : Nat)
    (hrecip : caller = (w.inv.invoices invoiceId).recipient)
    (hstate : (w.inv.invoices invoiceId).state = InvoiceState.sent ∨
              (w.inv.invoices invoiceId).state = InvoiceState.escrowed)
    (hpos : 0 < amount)
    (hpaid : (w.inv.invoices invoiceId).paidAmount ≤ (w.inv.invoices invoiceId).amount) :
    (amount < (w.inv.invoices invoiceId).amount - (w.inv.invoices invoiceId).paidAmount →
      (w.inv.invoices invoiceId).partPay = false →
      payInvoice w caller invoiceId amount = .error (.partNotAllowed invoiceId)) ∧
    ((w.inv.invoices invoiceId).amount - (w.inv.invoices invoiceId).paidAmount < amount →
      (w.inv.invoices invoiceId).paidAmount + amount < UMAX →
      payInvoice w caller invoiceId amount
        = .error (.invoiceOverpaid
            ((w.inv.invoices invoiceId).paidAmount + amount)
            (w.inv.invoices invoiceId).amount)) := by
  constructor
  · intro hlt hpp
    simp only [payInvoice]
    rw [if_neg (by simp [hrecip]), if_neg (by rcases hstate with h | h <;> simp [h]),
      if_neg (by omega), if_neg (by omega), if_pos (And.intro hlt hpp)]
  · intro hgt hov
    simp only [payInvoice]
    rw [if_neg (by simp [hrecip]), if_neg (by rcases hstate with h | h <;> simp [h]),
      if_neg (by omega), if_neg (by omega),
      if_neg (fun hc => absurd hc.1 (by omega)), if_pos hgt, if_neg (by omega)]

def c6w : World :=
  { baseWorld with
    inv := { initInvoiceSt with
      invoices := upd (fun _ => defaultInvoice) 0 { defaultInvoice with id := 0, issuer := 10, recipient := 20, amount := 100, paidAmount := 0, state := .sent, partPay := false } } }

/-- Claim C6, witness: on the concrete SENT invoice for 100 with partial
payments disabled, recipient 20 paying 60 reverts PartialPaymentsNotAllowed
and paying 150 reverts InvoiceOverpaid. -/
theorem claim_C6_witness :
    payInvoice c6w 20 0 60 = .error (.partNotAllowed 0) ∧
    payInvoice c6w 20 0 150
      = .error (.invoiceOverpaid ((c6w.inv.invoices 0).paidAmount + 150)
          (c6w.inv.invoices 0).amount) := by
  constructor
  · exact (claim_C6 c6w 20 0 60 (by decide) (Or.inl (by decide)) (by decide) (by decide)).1
      (by decide) (by decide)
  · exact (claim_C6 c6w 20 0 150 (by decide) (Or.inl (by decide)) (by decide) (by decide)).2
      (by decide) (by decide)

/-- The spent counter as it stands right after spend's period reset. -/
def spentAfterReset (a : Allowance) (now : Nat) : Nat :=
  if periodDuration a.period ≤ now - a.lastReset then 0 else a.spent

/-- When the agent's threshold is positive, the amount reaches it, and the
transaction hash has fewer approvals than configured signers, spend has no
successful execution path: every branch is a revert. -/
theorem spend_gate_blocks (w : World) (caller : Addr) (now allowanceId : Nat)
    (recipient : Addr) (amount : Nat)
    (hthr : 0 < (w.alw.multiSigConfigs (w.alw.allowances allowanceId).agent).threshold)
    (hamt : (w.alw.multiSigConfigs (w.alw.allowances allowanceId).agent).threshold ≤ amount)
    (happ : (w.alw.multiSigConfigs (w.alw.allowances allowanceId).agent).approvals
        { allowanceId := allowanceId, recipient := recipient, amount := amount, ts := now }
      < (w.alw.multiSigConfigs (w.alw.allowances allowanceId).agent).signers.length) :
    ∀ w', spend w caller now allowanceId recipient amount ≠ .ok w' := by
  intro w' h
  simp only [spend] at h
  repeat' (split at h)
  all_goals try (cases h)
  all_goals simp_all

/-- Claim C9: with a positive multi-sig threshold for the allowance's agent,
amount at or above the threshold and fewer recorded approvals for the
computed transaction hash than configured signers, spend never succeeds
(so spent is unchanged, every outcome being a revert), and whenever the
call passes the preceding validations (active, agent caller, nonzero
recipient, coherent clock and sufficient available allowance) the revert
is exactly MultiSigRequired. -/
theorem claim_C9 (w : World) (caller : Addr) (now allowanceId : Nat)
    (recipient : Addr) (amount : Nat)
    (hthr : 0 < (w.alw.multiSigConfigs (w.alw.allowances allowanceId).agent).threshold)
    (hamt : (w.alw.multiSigConfigs (w.alw.allowances allowanceId).agent).threshold ≤ amount)
    (happ : (w.alw.multiSigConfigs (w.alw.allowances allowanceId).agent).approvals
        { allowanceId := allowanceId, recipient := recipient, amount := amount, ts := now }
      < (w.alw.multiSigConfigs (w.alw.allowances allowanceId).agent).signers.length) :
    (∀ w', spend w caller now allowanceId recipient amount ≠ .ok w') ∧
    ((w.alw.allowances allowanceId).active = true →
      caller = (w.alw.allowances allowanceId).agent →
      recipient ≠ 0 →
      (w.alw.allowances allowanceId).lastReset ≤ now →
      spentAfterReset (w.alw.allowances allowanceId) now ≤ (w.alw.allowances allowanceId).limit →
      amount ≤ (w.alw.allowances allowanceId).limit - spentAfterReset (w.alw.allowances allowanceId) now →
      spend w caller now allowanceId recipient amount
        = .error (.multiSigRequired amount
            (w.alw.multiSigConfigs (w.alw.allowances allowanceId).agent).threshold)) := by
  constructor
  · exact spend_gate_blocks w caller now allowanceId recipient amount hthr hamt happ
  · intro hact hag hrec hle hsp hav
    simp only [spentAfterReset] at hsp hav
    simp only [spend]
    rw [if_neg (by simp [hact]), if_neg (by simp [hag]), if_neg hrec]
    by_cases hr : periodDuration (w.alw.allowances allowanceId).period ≤ now - (w.alw.allowances allowanceId).lastReset
    · rw [if_pos hr] at hsp hav
      have hshould : shouldReset (w.alw.allowances allowanceId) now = .ok true := by
        simp [shouldReset, hle, hr]
      rw [hshould]
      repeat' split
      all_goals simp_all
      all_goals omega
    · rw [if_neg hr] at hsp hav
      have hshould : shouldReset (w.alw.allowances allowanceId) now = .ok false := by
        simp [shouldReset, hle, hr]
      rw [hshould]
      repeat' split
      all_goals simp_all
      all_goals omega

def c9w : World :=
  { baseWorld with
    alw := { initAllowanceSt with
      allowanceIdCounter := 1,
      allowances := upd (fun _ => defaultAllowance) 0 { owner := 10, agent := 20, limit := 1000, period := .daily, spent := 0, lastReset := 0, rollover := false, active := true },
      agentAllowances := upd (fun _ => []) 20 [0],
      multiSigConfigs := upd (fun _ => defaultMultiSig) 20 { threshold := 5, signers := [31, 32], approvals := fun _ => 0 } } }

/-- Claim C9, witness: on the concrete state with threshold 5 and two
signers but zero approvals, agent 20 spending 10 reverts MultiSigRequired. -/
theorem claim_C9_witness :
    spend c9w 20 0 0 30 10 = .error (.multiSigRequired 10 5) :=
  (claim_C9 c9w 20 0 0 30 10 (by decide) (by decide) (by decide)).2
    (by decide) (by decide) (by decide) (by decide) (by decide) (by decide)

/-- Write one dispute slot of the invoice store. -/
def setDispute (w : World) (i : Nat) (d : Dispute) : World :=
  { w with inv := { w.inv with disputes := upd w.inv.disputes i d } }

/-- True exactly when the call committed (did not revert). -/
def isOk : Except Err World → Bool
  | .ok _ => true
  | .error _ => false

/-- Claim C7: resolveDispute by a listed validator always counts one more
approval, with no deduplication of repeat voters; strictly below the
majority floor(n/2)+1 the call commits with only the vote recorded (the
invoice, escrow and balances untouched, so a DISPUTED invoice stays
DISPUTED and no funds move); the vote that reaches the majority marks the
dispute resolved and either refunds the full escrow to the recipient and
cancels the invoice (refund = true), or runs the normal settlement
(refund = false); once resolved, every further call reverts with the
already-resolved error. -/
theorem claim_C7 (w : World) (caller : Addr) (invoiceId : Nat) :
    ((w.inv.disputes invoiceId).resolved = true →
      ∀ refund, resolveDispute w caller invoiceId refund
        = .error (.msg .alreadyResolved)) ∧
    ((w.inv.disputes invoiceId).resolved = false →
      caller ∈ (w.inv.disputes invoiceId).validators →
      (w.inv.disputes invoiceId).validatorApprovals + 1 < UMAX →
      (w.inv.disputes invoiceId).validatorApprovals + 1
          < (w.inv.disputes invoiceId).validators.length / 2 + 1 →
      ∀ refund, resolveDispute w caller invoiceId refund
        = .ok (setDispute w invoiceId { w.inv.disputes invoiceId with validatorApprovals := (w.inv.disputes invoiceId).validatorApprovals + 1 })) ∧
    ((w.inv.disputes invoiceId).resolved = false →
      caller ∈ (w.inv.disputes invoiceId).validators →
      (w.inv.disputes invoiceId).validatorApprovals + 1 < UMAX →
      (w.inv.disputes invoiceId).validators.length / 2 + 1
          ≤ (w.inv.disputes invoiceId).validatorApprovals + 1 →
      w.inv.escrowBalances invoiceId ≤ w.token.balances w.invoiceAddr →
      (w.inv.invoices invoiceId).recipient ≠ w.invoiceAddr →
      isOk (resolveDispute w caller invoiceId true) = true ∧
      (∀ w', resolveDispute w caller invoiceId true = .ok w' →
        (w'.inv.disputes invoiceId).resolved = true ∧
        (w'.inv.disputes invoiceId).validatorApprovals
          = (w.inv.disputes invoiceId).validatorApprovals + 1 ∧
        w'.inv.escrowBalances invoiceId = 0 ∧
        (w'.inv.invoices invoiceId).state = InvoiceState.cancelled ∧
        w'.token.balances (w.inv.invoices invoiceId).recipient
          = w.token.balances (w.inv.invoices invoiceId).recipient
            + w.inv.escrowBalances invoiceId ∧
        (w'.inv.invoices invoiceId).paidAmount
          = (w.inv.invoices invoiceId).paidAmount)) ∧
    ((w.inv.disputes invoiceId).resolved = false →
      caller ∈ (w.inv.disputes invoiceId).validators →
      (w.inv.disputes invoiceId).validatorApprovals + 1 < UMAX →
      (w.inv.disputes invoiceId).validators.length / 2 + 1
          ≤ (w.inv.disputes invoiceId).validatorApprovals + 1 →
      resolveDispute w caller invoiceId false
        = settle (setDispute w invoiceId { w.inv.disputes invoiceId with validatorApprovals := (w.inv.disputes invoiceId).validatorApprovals + 1, resolved := true }) invoiceId) := by
  refine ⟨?_, ?_, ?_, ?_⟩
  · intro hres refund
    simp [resolveDispute, hres]
  · intro hres hmem hov hmaj refund
    simp only [resolveDispute]
    rw [if_neg (by simp [hres]), if_pos hmem, if_neg (by omega), if_pos hmaj]
    rfl
  · intro hres hmem hov hmaj hbal hrcp
    have htr : ∀ w', resolveDispute w caller invoiceId true = .ok w' →
        (w'.inv.disputes invoiceId).resolved = true ∧
        (w'.inv.disputes invoiceId).validatorApprovals
          = (w.inv.disputes invoiceId).validatorApprovals + 1 ∧
        w'.inv.escrowBalances invoiceId = 0 ∧
        (w'.inv.invoices invoiceId).state = InvoiceState.cancelled ∧
        w'.token.balances (w.inv.invoices invoiceId).recipient
          = w.token.balances (w.inv.invoices invoiceId).recipient
            + w.inv.escrowBalances invoiceId ∧
        (w'.inv.invoices invoiceId).paidAmount
          = (w.inv.invoices invoiceId).paidAmount := by
      intro w' h
      simp only [resolveDispute] at h
      repeat' (split at h)
      all_goals try (cases h)
      all_goals try (simp_all; done)
      all_goals try omega
      rename_i tk hsome
      simp only [Token.transfer] at hsome
      rw [if_pos hbal] at hsome
      injection hsome with hsome
      subst hsome
      refine ⟨by simp [upd], by simp [upd], by simp [upd], by simp [upd], ?_, by simp [upd]⟩
      simp [upd, hrcp]
    constructor
    · rcases hok : resolveDispute w caller invoiceId true with e | w2
      · exfalso
        simp only [resolveDispute] at hok
        rw [if_neg (by simp [hres]), if_pos hmem, if_neg (by omega), if_neg (by omega)] at hok
        rw [if_pos trivial] at hok
        split at hok
        · rename_i hnone
          revert hnone
          simp [Token.transfer, hbal]
        · cases hok
      · simp [isOk]
    · exact htr
  · intro hres hmem hov hmaj
    simp only [resolveDispute]
    rw [if_neg (by simp [hres]), if_pos hmem, if_neg (by omega), if_neg (by omega),
      if_neg Bool.false_ne_true]
    rfl

def c7w : World :=
  { baseWorld with
    token := { balances := fun a => if a = 3 then 100 else 0, allowanceOf := fun _ _ => 0 },
    inv := { initInvoiceSt with
      invoices := upd (fun _ => defaultInvoice) 0 { defaultInvoice with id := 0, issuer := 10, recipient := 20, amount := 100, paidAmount := 100, state := .disputed },
      disputes := upd (fun _ => defaultDispute) 0 { invoiceId := 0, initiator := 20, reason := "", createdAt := 0, validators := [31, 32, 33], validatorApprovals := 0, resolved := false },
      escrowBalances := upd (fun _ => 0) 0 100 } }

def c7w1 : World := okOr (resolveDispute c7w 31 0 true) c7w

def c7w2 : World := okOr (resolveDispute c7w1 32 0 true) c7w1

/-- Claim C7, witness: with 3 validators the majority is 2; validator 31's
vote commits with only the vote recorded (invoice still DISPUTED, escrow
and balances untouched, as the exact-state equality shows); validator 32's
vote resolves and refunds the full escrow of 100 to recipient 20, leaving
the invoice CANCELLED; validator 33's vote afterwards reverts
AlreadyResolved. -/
theorem claim_C7_witness :
    (resolveDispute c7w 31 0 true
      = .ok (setDispute c7w 0 { c7w.inv.disputes 0 with validatorApprovals := (c7w.inv.disputes 0).validatorApprovals + 1 })) ∧
    isOk (resolveDispute c7w1 32 0 true) = true ∧
    ((c7w2.inv.disputes 0).resolved = true ∧
      (c7w2.inv.disputes 0).validatorApprovals = (c7w1.inv.disputes 0).validatorApprovals + 1 ∧
      c7w2.inv.escrowBalances 0 = 0 ∧
      (c7w2.inv.invoices 0).state = InvoiceState.cancelled ∧
      c7w2.token.balances (c7w1.inv.invoices 0).recipient
        = c7w1.token.balances (c7w1.inv.invoices 0).recipient + c7w1.inv.escrowBalances 0 ∧
      (c7w2.inv.invoices 0).paidAmount = (c7w1.inv.invoices 0).paidAmount) ∧
    resolveDispute c7w2 33 0 true = .error (.msg .alreadyResolved) := by
  refine ⟨?_, ?_, ?_, ?_⟩
  · exact (claim_C7 c7w 31 0).2.1 (by decide) (by decide) (by decide) (by decide) true
  · exact ((claim_C7 c7w1 32 0).2.2.1 (by decide) (by decide) (by decide) (by decide)
      (by decide) (by decide)).1
  · exact ((claim_C7 c7w1 32 0).2.2.1 (by decide) (by decide) (by decide) (by decide)
      (by decide) (by decide)).2 c7w2 rfl
  · exact (claim_C7 c7w2 33 0).1 (by decide) true

/-- A successful spend touches only the token and the spent/lastReset of
the one allowance: the biller and invoice storages, the other allowance
fields and the contract addresses are unchanged. -/
theorem spend_ok_frame (w : World) (caller : Addr) (now allowanceId : Nat)
    (recipient : Addr) (amount : Nat) (w' : World)
    (h : spend w caller now allowanceId recipient amount = .ok w') :
    w'.bill = w.bill ∧ w'.inv = w.inv ∧
    w'.billerAddr = w.billerAddr ∧ w'.allowAddr = w.allowAddr ∧
    w'.invoiceAddr = w.invoiceAddr ∧ w'.invoiceOwner = w.invoiceOwner ∧
    w'.alw.multiSigConfigs = w.alw.multiSigConfigs ∧
    w'.alw.agentAllowances = w.alw.agentAllowances ∧
    w'.alw.allowanceIdCounter = w.alw.allowanceIdCounter ∧
    (∀ j, (w'.alw.allowances j).agent = (w.alw.allowances j).agent) ∧
    (∀ j, (w'.alw.allowances j).owner = (w.alw.allowances j).owner) := by
  simp only [spend] at h
  repeat' (split at h)
  all_goals try (cases h)
  all_goals
    (refine ⟨rfl, rfl, rfl, rfl, rfl, rfl, rfl, rfl, rfl, ?_, ?_⟩ <;>
      (intro j
       by_cases hj : j = allowanceId
       · subst hj
         simp_all [upd]
       · simp [upd, hj]))

/-- The success path of spend requires the caller to be the allowance's
agent and the recipient to be nonzero. -/
theorem spend_ok_agent (w : World) (caller : Addr) (now allowanceId : Nat)
    (recipient : Addr) (amount : Nat) (w' : World)
    (h : spend w caller now allowanceId recipient amount = .ok w') :
    caller = (w.alw.allowances allowanceId).agent ∧ recipient ≠ 0 := by
  simp only [spend] at h
  repeat' (split at h)
  all_goals try (cases h)
  all_goals simp_all

/-- A successful spend moves amount from the allowance owner to the
recipient and leaves every other balance unchanged. -/
theorem spend_ok_balances (w : World) (caller : Addr) (now allowanceId : Nat)
    (recipient : Addr) (amount : Nat) (w' : World)
    (h : spend w caller now allowanceId recipient amount = .ok w') :
    (∀ x, x ≠ (w.alw.allowances allowanceId).owner → x ≠ recipient →
      w'.token.balances x = w.token.balances x) ∧
    ((w.alw.allowances allowanceId).owner ≠ recipient →
      w'.token.balances recipient = w.token.balances recipient + amount) := by
  simp only [spend] at h
  repeat' (split at h)
  all_goals try (cases h)
  all_goals
    (rename_i tk htk
     simp only [Token.transferFrom] at htk
     split at htk
     · injection htk with htk
       subst htk
       constructor
       · intro x hxo hxr
         simp_all [upd]
       · intro hor
         simp_all [upd]
         intro hx
         exact absurd hx.symm hor
     · cases htk)

/-- Write one subscription slot of the biller store. -/
def setSub (w : World) (i : Nat) (s : Subscription) : World :=
  { w with bill := { w.bill with subscriptions := upd w.bill.subscriptions i s } }

/-- The subscription record as a successful billing at time now rewrites it
(RecurringPayments._attemptBilling success branch). -/
def billedSub (sub : Subscription) (now : Nat) : Subscription :=
  { sub with lastBilled := now, nextBilling := now + getIntervalDuration sub.interval, failedBillings := 0, totalPaid := sub.totalPaid + sub.amount }

/-- The success path of processBilling: for an ACTIVE, due subscription with
fewer than MAX_FAILED_BILLINGS failures, a sufficient remaining allowance
and a successful underlying spend, the attempt commits, resetting the
failure counter, stamping lastBilled = now, rescheduling
nextBilling = now + interval and accumulating totalPaid. -/
theorem attemptBilling_success (w : World) (now subId : Nat) (r : Nat) (w2 : World)
    (h1 : (w.bill.subscriptions subId).state = SubState.active)
    (h2 : (w.bill.subscriptions subId).nextBilling ≤ now)
    (h3 : (w.bill.subscriptions subId).failedBillings < MAX_FAILED_BILLINGS)
    (h4 : getRemainingAllowance w now (w.bill.subscriptions subId).allowanceId = .ok r)
    (h5 : (w.bill.subscriptions subId).amount ≤ r)
    (h6 : spend w w.billerAddr now (w.bill.subscriptions subId).allowanceId
        (w.bill.subscriptions subId).provider (w.bill.subscriptions subId).amount = .ok w2)
    (h7 : now + getIntervalDuration (w.bill.subscriptions subId).interval < UMAX)
    (h8 : (w.bill.subscriptions subId).totalPaid + (w.bill.subscriptions subId).amount < UMAX) :
    processBilling w now subId
      = .ok (setSub w2 subId (billedSub (w2.bill.subscriptions subId) now)) := by
  have hbill : w2.bill = w.bill :=
    (spend_ok_frame w w.billerAddr now (w.bill.subscriptions subId).allowanceId
      (w.bill.subscriptions subId).provider (w.bill.subscriptions subId).amount w2 h6).1
  simp only [processBilling, attemptBilling]
  rw [if_neg (by simp [h1]), if_neg (by omega), if_neg (by omega)]
  simp only [h4]
  rw [if_neg (by omega)]
  simp only [h6]
  rw [hbill]
  rw [if_neg (by omega), if_neg (by omega)]
  simp only [setSub, billedSub, hbill]

def c4w : World :=
  { baseWorld with
    alw := { initAllowanceSt with
      allowanceIdCounter := 1,
      allowances := upd (fun _ => defaultAllowance) 0 { owner := 10, agent := 2, limit := 1000, period := .daily, spent := 0, lastReset := 143200, rollover := false, active := true },
      agentAllowances := upd (fun _ => []) 2 [0] },
    bill := { initBillerSt with
      subscriptionIdCounter := 1,
      subscriptions := upd (fun _ => defaultSubscription) 0 { id := 0, subscriber := 20, provider := 30, amount := 50, interval := .daily, state := .active, allowanceId := 0, createdAt := 0, nextBilling := 100000, lastBilled := 0, failedBillings := 0, totalPaid := 0 } } }

def c4wSpent : World := okOr (spend c4w 2 143200 0 30 50) c4w

def c4wAfter : World := okOr (processBilling c4w 143200 0) c4w

/-- Claim C4, counterexample: subscription 0 is ACTIVE and due
(nextBilling = 100000 ≤ now = 143200) and the underlying spend succeeds,
but the successful billing sets nextBilling to
now + intervalDuration = 229600, not to the previous
nextBilling + intervalDuration = 186400: the code reschedules from
block.timestamp, not from the previous due date. -/
theorem claim_C4_counterexample :
    (c4w.bill.subscriptions 0).state = SubState.active ∧
    (c4w.bill.subscriptions 0).nextBilling ≤ 143200 ∧
    processBilling c4w 143200 0 = .ok c4wAfter ∧
    (c4wAfter.bill.subscriptions 0).nextBilling
      ≠ (c4w.bill.subscriptions 0).nextBilling
        + getIntervalDuration (c4w.bill.subscriptions 0).interval := by
  refine ⟨rfl, by decide, rfl, by decide⟩

/-- Claim C4 (amended): for an ACTIVE, due subscription with fewer than
MAX_FAILED_BILLINGS failures whose allowance query reports enough
remaining and whose underlying spend succeeds, the billing attempt
commits and sets failedBillings to 0, lastBilled to now, nextBilling to
now + intervalDuration (equal to the previous nextBilling +
intervalDuration only when billed exactly at the due time), adds the
subscription amount to totalPaid and leaves the state ACTIVE. -/
theorem claim_C4_amended (w : World) (now subId r : Nat) (w2 : World)
    (h1 : (w.bill.subscriptions subId).state = SubState.active)
    (h2 : (w.bill.subscriptions subId).nextBilling ≤ now)
    (h3 : (w.bill.subscriptions subId).failedBillings < MAX_FAILED_BILLINGS)
    (h4 : getRemainingAllowance w now (w.bill.subscriptions subId).allowanceId = .ok r)
    (h5 : (w.bill.subscriptions subId).amount ≤ r)
    (h6 : spend w w.billerAddr now (w.bill.subscriptions subId).allowanceId
        (w.bill.subscriptions subId).provider (w.bill.subscriptions subId).amount = .ok w2)
    (h7 : now + getIntervalDuration (w.bill.subscriptions subId).interval < UMAX)
    (h8 : (w.bill.subscriptions subId).totalPaid + (w.bill.subscriptions subId).amount < UMAX) :
    isOk (processBilling w now subId) = true ∧
    (∀ w', processBilling w now subId = .ok w' →
      (w'.bill.subscriptions subId).failedBillings = 0 ∧
      (w'.bill.subscriptions subId).lastBilled = now ∧
      (w'.bill.subscriptions subId).nextBilling
        = now + getIntervalDuration (w.bill.subscriptions subId).interval ∧
      (w'.bill.subscriptions subId).totalPaid
        = (w.bill.subscriptions subId).totalPaid + (w.bill.subscriptions subId).amount ∧
      (w'.bill.subscriptions subId).state = SubState.active) := by
  have heq := attemptBilling_success w now subId r w2 h1 h2 h3 h4 h5 h6 h7 h8
  have hbill : w2.bill = w.bill :=
    (spend_ok_frame w w.billerAddr now (w.bill.subscriptions subId).allowanceId
      (w.bill.subscriptions subId).provider (w.bill.subscriptions subId).amount w2 h6).1
  constructor
  · rw [heq]
    rfl
  · intro w' h
    rw [heq] at h
    injection h with h
    subst h
    simp [setSub, billedSub, upd_same, hbill, h1]

/-- Claim C4 (amended), witness: the concrete late billing of
claim_C4_counterexample satisfies all the amended conclusions. -/
theorem claim_C4_amended_witness :
    isOk (processBilling c4w 143200 0) = true ∧
    ((c4wAfter.bill.subscriptions 0).failedBillings = 0 ∧
     (c4wAfter.bill.subscriptions 0).lastBilled = 143200 ∧
     (c4wAfter.bill.subscriptions 0).nextBilling
       = 143200 + getIntervalDuration (c4w.bill.subscriptions 0).interval ∧
     (c4wAfter.bill.subscriptions 0).totalPaid
       = (c4w.bill.subscriptions 0).totalPaid + (c4w.bill.subscriptions 0).amount ∧
     (c4wAfter.bill.subscriptions 0).state = SubState.active) := by
  refine ⟨?_, ?_⟩
  · exact (claim_C4_amended c4w 143200 0 1000 c4wSpent rfl (by decide) (by decide) rfl
      (by decide) rfl (by decide) (by decide)).1
  · exact (claim_C4_amended c4w 143200 0 1000 c4wSpent rfl (by decide) (by decide) rfl
      (by decide) rfl (by decide) (by decide)).2 c4wAfter rfl

/-- The guard is held for the whole batch loop, so every iteration's
self-call reverts at the nonReentrant check and the bare catch swallows
it: batchBilling is the identity on the state. -/
theorem batchBilling_id (now : Nat) :
    ∀ (ids : List Nat) (w : World), batchBilling now w ids = .ok w := by
  intro ids
  induction ids with
  | nil => intro w; rfl
  | cons i rest ih =>
    intro w
    have hp : processBillingNR true w now i
        = Except.error (Err.msg RevertMsg.reentrantCall) := rfl
    simp only [batchBilling, hp]
    exact ih w

/-- Claim C2, counterexample: subscription 0 of c4w is ACTIVE, due
(nextBilling = 100000 ≤ now = 143200) and sufficiently funded — a direct
processBilling call bills it, stamping lastBilled = 143200 — yet
batchBilling on the singleton list [0] at the same instant returns ok with
the state unchanged (lastBilled still 0): the inner
try this.processBilling(0) is an external self-call that hits the
ReentrancyGuard already held by the nonReentrant batchBilling and reverts
with "ReentrancyGuard: reentrant call", swallowed by the bare catch, so
the due and funded ACTIVE subscription in the batch is not billed. -/
theorem claim_C2_counterexample :
    (c4w.bill.subscriptions 0).state = SubState.active ∧
    (c4w.bill.subscriptions 0).nextBilling ≤ 143200 ∧
    processBilling c4w 143200 0 = .ok c4wAfter ∧
    (c4wAfter.bill.subscriptions 0).lastBilled = 143200 ∧
    batchBilling 143200 c4w [0] = .ok c4w ∧
    (c4w.bill.subscriptions 0).lastBilled = 0 := by
  refine ⟨rfl, by decide, rfl, by decide, rfl, rfl⟩

/-- Claim C2 (amended): batchBilling iterates the list attempting
this.processBilling per id and never propagates an error to its caller;
but batchBilling is itself nonReentrant and shares its ReentrancyGuard
with the likewise nonReentrant processBilling, so every inner external
self-call re-enters the held guard and reverts with the require string
"ReentrancyGuard: reentrant call" before attempting any billing; the bare
catch swallows each failure and continues, so batchBilling always returns
success with the entire state unchanged and no subscription in a batch is
ever billed — not even a due, sufficiently funded ACTIVE one. -/
theorem claim_C2_amended :
    (∀ (w : World) (now subId : Nat),
      processBillingNR true w now subId
        = Except.error (Err.msg RevertMsg.reentrantCall)) ∧
    (∀ (now : Nat) (w : World) (ids : List Nat),
      batchBilling now w ids = .ok w) :=
  ⟨fun _ _ _ => rfl, fun now w ids => batchBilling_id now ids w⟩

/-- createAllowance never touches the multi-sig configs nor the other two
contracts' storages. -/
theorem createAllowance_frame (w : World) (caller : Addr) (now : Nat)
    (agent : Addr) (limit : Nat) (period : Period) (ro : Bool) (res : World × Nat)
    (h : createAllowance w caller now agent limit period ro = .ok res) :
    res.1.alw.multiSigConfigs = w.alw.multiSigConfigs ∧
    res.1.bill = w.bill ∧ res.1.inv = w.inv ∧ res.1.token = w.token ∧
    res.1.billerAddr = w.billerAddr := by
  simp only [createAllowance] at h
  repeat' (split at h)
  all_goals try (cases h)
  all_goals exact ⟨rfl, rfl, rfl, rfl, rfl⟩

/-- updateAllowance touches only limit and period of one allowance. -/
theorem updateAllowance_frame (w : World) (caller : Addr)
    (allowanceId newLimit : Nat) (newPeriod : Period) (w' : World)
    (h : updateAllowance w caller allowanceId newLimit newPeriod = .ok w') :
    w'.alw.multiSigConfigs = w.alw.multiSigConfigs ∧
    w'.bill = w.bill ∧ w'.inv = w.inv ∧ w'.token = w.token ∧
    w'.billerAddr = w.billerAddr := by
  simp only [updateAllowance] at h
  repeat' (split at h)
  all_goals try (cases h)
  all_goals exact ⟨rfl, rfl, rfl, rfl, rfl⟩

/-- revokeAllowance touches only the active flag of one allowance. -/
theorem revokeAllowance_frame (w : World) (caller : Addr) (allowanceId : Nat)
    (w' : World) (h : revokeAllowance w caller allowanceId = .ok w') :
    w'.alw.multiSigConfigs = w.alw.multiSigConfigs ∧
    w'.bill = w.bill ∧ w'.inv = w.inv ∧ w'.token = w.token ∧
    w'.billerAddr = w.billerAddr := by
  simp only [revokeAllowance] at h
  repeat' (split at h)
  all_goals try (cases h)
  all_goals exact ⟨rfl, rfl, rfl, rfl, rfl⟩

/-- configureMultiSig replaces threshold and signers but carries every
approvals count over unchanged. -/
theorem configureMultiSig_frame (w : World) (caller agent : Addr)
    (threshold : Nat) (signers : List Addr) (w' : World)
    (h : configureMultiSig w caller agent threshold signers = .ok w') :
    (∀ ag h', (w'.alw.multiSigConfigs ag).approvals h'
      = (w.alw.multiSigConfigs ag).approvals h') ∧
    w'.bill = w.bill ∧ w'.inv = w.inv ∧ w'.token = w.token ∧
    w'.billerAddr = w.billerAddr := by
  simp only [configureMultiSig] at h
  repeat' (split at h)
  all_goals try (cases h)
  all_goals
    (refine ⟨?_, rfl, rfl, rfl, rfl⟩
     intro ag h'
     by_cases hag : ag = agent
     · subst hag
       simp [upd]
     · simp [upd, hag])

/-- approveTransaction either leaves an approvals count unchanged or bumps
it from 0 to 1 (the AlreadyApproved guard forbids anything else). -/
theorem approveTransaction_cases (w : World) (caller : Addr) (txHash : TxHash)
    (agent : Addr) (w' : World)
    (h : approveTransaction w caller txHash agent = .ok w') :
    (∀ ag h', (w'.alw.multiSigConfigs ag).approvals h'
        = (w.alw.multiSigConfigs ag).approvals h' ∨
      ((w.alw.multiSigConfigs ag).approvals h' = 0 ∧
        (w'.alw.multiSigConfigs ag).approvals h' = 1)) ∧
    w'.bill = w.bill ∧ w'.inv = w.inv ∧ w'.token = w.token ∧
    w'.billerAddr = w.billerAddr := by
  simp only [approveTransaction] at h
  repeat' (split at h)
  all_goals try (cases h)
  all_goals
    (rename_i hmem hzero
     refine ⟨?_, rfl, rfl, rfl, rfl⟩
     intro ag h'
     by_cases hag : ag = agent
     · subst hag
       by_cases hh : h' = txHash
       · subst hh
         right
         constructor
         · omega
         · simp [upd]
           omega
       · left
         simp [upd, hh]
     · left
       simp [upd, hag])

/-- The internal settlement mutates only the invoice storage and the token. -/
theorem settle_frame (w : World) (invoiceId : Nat) (w' : World)
    (h : settle w invoiceId = .ok w') :
    w'.alw = w.alw ∧ w'.bill = w.bill ∧ w'.billerAddr = w.billerAddr := by
  simp only [settle] at h
  repeat' (split at h)
  all_goals try (cases h)
  all_goals exact ⟨rfl, rfl, rfl⟩

/-- createInvoice mutates only the invoice storage. -/
theorem createInvoice_frame (w : World) (caller : Addr) (now : Nat)
    (recipient : Addr) (amount : Nat) (description : String) (dueDate : Nat)
    (pp : Bool) (res : World × Nat)
    (h : createInvoice w caller now recipient amount description dueDate pp = .ok res) :
    res.1.alw = w.alw ∧ res.1.bill = w.bill ∧ res.1.token = w.token ∧
    res.1.billerAddr = w.billerAddr := by
  simp only [createInvoice] at h
  repeat' (split at h)
  all_goals try (cases h)
  all_goals exact ⟨rfl, rfl, rfl, rfl⟩

/-- sendInvoice mutates only the invoice storage. -/
theorem sendInvoice_frame (w : World) (caller : Addr) (invoiceId : Nat)
    (w' : World) (h : sendInvoice w caller invoiceId = .ok w') :
    w'.alw = w.alw ∧ w'.bill = w.bill ∧ w'.token = w.token ∧
    w'.billerAddr = w.billerAddr := by
  simp only [sendInvoice] at h
  repeat' (split at h)
  all_goals try (cases h)
  all_goals exact ⟨rfl, rfl, rfl, rfl⟩

/-- payInvoice mutates only the invoice storage and the token. -/
theorem payInvoice_frame (w : World) (caller : Addr) (invoiceId amount : Nat)
    (w' : World) (h : payInvoice w caller invoiceId amount = .ok w') :
    w'.alw = w.alw ∧ w'.bill = w.bill ∧ w'.billerAddr = w.billerAddr := by
  unfold payInvoice at h
  simp only [] at h
  by_cases c1 : caller ≠ (w.inv.invoices invoiceId).recipient
  · rw [if_pos c1] at h
    cases h
  · rw [if_neg c1] at h
    by_cases c2 : (w.inv.invoices invoiceId).state ≠ InvoiceState.sent ∧
        (w.inv.invoices invoiceId).state ≠ InvoiceState.escrowed
    · rw [if_pos c2] at h
      cases h
    · rw [if_neg c2] at h
      by_cases c3 : amount = 0
      · rw [if_pos c3] at h
        cases h
      · rw [if_neg c3] at h
        by_cases c4 : (w.inv.invoices invoiceId).amount < (w.inv.invoices invoiceId).paidAmount
        · rw [if_pos c4] at h
          cases h
        · rw [if_neg c4] at h
          by_cases c5 : amount < (w.inv.invoices invoiceId).amount - (w.inv.invoices invoiceId).paidAmount ∧
              (w.inv.invoices invoiceId).partPay = false
          · rw [if_pos c5] at h
            cases h
          · rw [if_neg c5] at h
            by_cases c6 : (w.inv.invoices invoiceId).amount - (w.inv.invoices invoiceId).paidAmount < amount
            · rw [if_pos c6] at h
              split at h
              · cases h
              · cases h
            · rw [if_neg c6] at h
              cases hm : w.token.transferFrom w.invoiceAddr caller w.invoiceAddr amount with
              | none =>
                simp only [hm] at h
                cases h
              | some tk =>
                simp only [hm] at h
                by_cases c7 : UMAX ≤ w.inv.escrowBalances invoiceId + amount
                · rw [if_pos c7] at h
                  cases h
                · rw [if_neg c7] at h
                  by_cases c8 : UMAX ≤ (w.inv.invoices invoiceId).paidAmount + amount
                  · rw [if_pos c8] at h
                    cases h
                  · rw [if_neg c8] at h
                    by_cases c9 : (w.inv.invoices invoiceId).amount ≤ (w.inv.invoices invoiceId).paidAmount + amount
                    · rw [if_pos c9] at h
                      exact ⟨(settle_frame _ _ _ h).1, (settle_frame _ _ _ h).2.1, (settle_frame _ _ _ h).2.2⟩
                    · rw [if_neg c9] at h
                      cases h
                      exact ⟨rfl, rfl, rfl⟩

/-- cancelInvoice mutates only the invoice storage. -/
theorem cancelInvoice_frame (w : World) (caller : Addr) (invoiceId : Nat)
    (w' : World) (h : cancelInvoice w caller invoiceId = .ok w') :
    w'.alw = w.alw ∧ w'.bill = w.bill ∧ w'.token = w.token ∧
    w'.billerAddr = w.billerAddr := by
  simp only [cancelInvoice] at h
  repeat' (split at h)
  all_goals try (cases h)
  all_goals exact ⟨rfl, rfl, rfl, rfl⟩

/-- raiseDispute mutates only the invoice storage. -/
theorem raiseDispute_frame (w : World) (caller : Addr) (now invoiceId : Nat)
    (reason : String) (validators : List Addr) (w' : World)
    (h : raiseDispute w caller now invoiceId reason validators = .ok w') :
    w'.alw = w.alw ∧ w'.bill = w.bill ∧ w'.token = w.token ∧
    w'.billerAddr = w.billerAddr := by
  simp only [raiseDispute] at h
  repeat' (split at h)
  all_goals try (cases h)
  all_goals exact ⟨rfl, rfl, rfl, rfl⟩

/-- resolveDispute mutates only the invoice storage and the token. -/
theorem resolveDispute_frame (w : World) (caller : Addr) (invoiceId : Nat)
    (refund : Bool) (w' : World)
    (h : resolveDispute w caller invoiceId refund = .ok w') :
    w'.alw = w.alw ∧ w'.bill = w.bill ∧ w'.billerAddr = w.billerAddr := by
  unfold resolveDispute at h
  simp only [] at h
  by_cases c1 : (w.inv.disputes invoiceId).resolved = true
  · rw [if_pos c1] at h
    cases h
  · rw [if_neg c1] at h
    by_cases c2 : caller ∈ (w.inv.disputes invoiceId).validators
    · rw [if_pos c2] at h
      by_cases c3 : UMAX ≤ (w.inv.disputes invoiceId).validatorApprovals + 1
      · rw [if_pos c3] at h
        cases h
      · rw [if_neg c3] at h
        by_cases c4 : (w.inv.disputes invoiceId).validatorApprovals + 1
            < (w.inv.disputes invoiceId).validators.length / 2 + 1
        · rw [if_pos c4] at h
          cases h
          exact ⟨rfl, rfl, rfl⟩
        · rw [if_neg c4] at h
          by_cases c5 : refund = true
          · rw [if_pos c5] at h
            cases hm : w.token.transfer w.invoiceAddr (w.inv.invoices invoiceId).recipient
                (w.inv.escrowBalances invoiceId) with
            | none =>
              simp only [hm] at h
              cases h
            | some tk =>
              simp only [hm] at h
              cases h
              exact ⟨rfl, rfl, rfl⟩
          · rw [if_neg c5] at h
            exact ⟨(settle_frame _ _ _ h).1, (settle_frame _ _ _ h).2.1, (settle_frame _ _ _ h).2.2⟩
    · rw [if_neg c2] at h
      cases h

/-- withdrawFees mutates only the invoice storage and the token. -/
theorem withdrawFees_frame (w : World) (caller dst : Addr) (w' : World)
    (h : withdrawFees w caller dst = .ok w') :
    w'.alw = w.alw ∧ w'.bill = w.bill ∧ w'.billerAddr = w.billerAddr := by
  simp only [withdrawFees] at h
  repeat' (split at h)
  all_goals try (cases h)
  all_goals exact ⟨rfl, rfl, rfl⟩

/-- pauseSubscription mutates only the biller storage. -/
theorem pauseSubscription_frame (w : World) (caller : Addr) (subId : Nat)
    (w' : World) (h : pauseSubscription w caller subId = .ok w') :
    w'.alw = w.alw ∧ w'.inv = w.inv ∧ w'.token = w.token ∧
    w'.billerAddr = w.billerAddr := by
  simp only [pauseSubscription] at h
  repeat' (split at h)
  all_goals try (cases h)
  all_goals exact ⟨rfl, rfl, rfl, rfl⟩

/-- resumeSubscription mutates only the biller storage. -/
theorem resumeSubscription_frame (w : World) (caller : Addr) (now subId : Nat)
    (w' : World) (h : resumeSubscription w caller now subId = .ok w') :
    w'.alw = w.alw ∧ w'.inv = w.inv ∧ w'.token = w.token ∧
    w'.billerAddr = w.billerAddr := by
  simp only [resumeSubscription] at h
  repeat' (split at h)
  all_goals try (cases h)
  all_goals exact ⟨rfl, rfl, rfl, rfl⟩

/-- cancelSubscription mutates only the biller storage and the token. -/
theorem cancelSubscription_frame (w : World) (caller : Addr) (now subId : Nat)
    (w' : World) (h : cancelSubscription w caller now subId = .ok w') :
    w'.alw = w.alw ∧ w'.inv = w.inv ∧ w'.billerAddr = w.billerAddr := by
  simp only [cancelSubscription] at h
  repeat' (split at h)
  all_goals try (cases h)
  all_goals exact ⟨rfl, rfl, rfl⟩

/-- A billing attempt leaves the multi-sig configs and the invoice storage
unchanged (the nested spend only moves tokens and the spent counter). -/
theorem attemptBilling_ms (w : World) (now subId : Nat) (w' : World)
    (h : attemptBilling w now subId = .ok w') :
    w'.alw.multiSigConfigs = w.alw.multiSigConfigs ∧ w'.inv = w.inv ∧
    w'.billerAddr = w.billerAddr := by
  unfold attemptBilling at h
  simp only [] at h
  by_cases c1 : (w.bill.subscriptions subId).state ≠ SubState.active
  · rw [if_pos c1] at h
    cases h
  · rw [if_neg c1] at h
    by_cases c2 : now < (w.bill.subscriptions subId).nextBilling
    · rw [if_pos c2] at h
      cases h
      exact ⟨rfl, rfl, rfl⟩
    · rw [if_neg c2] at h
      by_cases c3 : MAX_FAILED_BILLINGS ≤ (w.bill.subscriptions subId).failedBillings
      · rw [if_pos c3] at h
        cases h
      · rw [if_neg c3] at h
        cases hr : getRemainingAllowance w now (w.bill.subscriptions subId).allowanceId with
        | error e =>
          simp only [hr] at h
          cases h
        | ok remaining =>
          simp only [hr] at h
          by_cases c4 : remaining < (w.bill.subscriptions subId).amount
          · rw [if_pos c4] at h
            cases h
            exact ⟨rfl, rfl, rfl⟩
          · rw [if_neg c4] at h
            cases hs : spend w w.billerAddr now (w.bill.subscriptions subId).allowanceId
                (w.bill.subscriptions subId).provider (w.bill.subscriptions subId).amount with
            | ok w2 =>
              simp only [hs] at h
              have hf := spend_ok_frame _ _ _ _ _ _ _ hs
              by_cases c5 : UMAX ≤ now + getIntervalDuration (w2.bill.subscriptions subId).interval
              · rw [if_pos c5] at h
                cases h
              · rw [if_neg c5] at h
                by_cases c6 : UMAX ≤ (w2.bill.subscriptions subId).totalPaid
                    + (w2.bill.subscriptions subId).amount
                · rw [if_pos c6] at h
                  cases h
                · rw [if_neg c6] at h
                  cases h
                  exact ⟨hf.2.2.2.2.2.2.1, hf.2.1, hf.2.2.1⟩
            | error e =>
              simp only [hs] at h
              by_cases c5 : isStringError e = true
              · rw [if_pos c5] at h
                cases h
                exact ⟨rfl, rfl, rfl⟩
              · rw [if_neg c5] at h
                cases h

/-- subscribe leaves the multi-sig configs and the invoice storage
unchanged. -/
theorem subscribe_ms (w : World) (caller : Addr) (now : Nat) (provider : Addr)
    (amount : Nat) (interval : Interval) (allowanceId : Nat) (res : World × Nat)
    (h : subscribe w caller now provider amount interval allowanceId = .ok res) :
    res.1.alw.multiSigConfigs = w.alw.multiSigConfigs ∧ res.1.inv = w.inv ∧
    res.1.billerAddr = w.billerAddr := by
  simp only [subscribe] at h
  repeat' (split at h)
  all_goals try (cases h)
  all_goals
    (rename_i hab
     have hf := attemptBilling_ms _ _ _ _ hab
     exact ⟨hf.1, hf.2.1, hf.2.2⟩)

/-- batchBilling leaves the multi-sig configs and the invoice storage
unchanged. -/
theorem batchBilling_ms (now : Nat) :
    ∀ (ids : List Nat) (w w' : World), batchBilling now w ids = .ok w' →
    w'.alw.multiSigConfigs = w.alw.multiSigConfigs ∧ w'.inv = w.inv ∧
    w'.billerAddr = w.billerAddr := by
  intro ids w w' h
  rw [batchBilling_id now ids w] at h
  injection h with h
  subst h
  exact ⟨rfl, rfl, rfl⟩

/-- Invariant: no transaction hash ever accumulates more than one approval. -/
def ApprovalsAtMostOne (w : World) : Prop :=
  ∀ ag h', (w.alw.multiSigConfigs ag).approvals h' ≤ 1

/-- Every public operation preserves the at-most-one-approval invariant:
approveTransaction only ever bumps a count from 0 to 1, configureMultiSig
carries counts over, and nothing else writes the multi-sig configs. -/
theorem step_approvals (w w' : World) (hs : FullStep w w')
    (hinv : ApprovalsAtMostOne w) : ApprovalsAtMostOne w' := by
  cases hs with
  | create caller now agent limit period ro res h =>
    intro ag h'
    rw [(createAllowance_frame _ _ _ _ _ _ _ _ h).1]
    exact hinv ag h'
  | spendS caller now allowanceId recipient amount wf h =>
    intro ag h'
    rw [(spend_ok_frame _ _ _ _ _ _ _ h).2.2.2.2.2.2.1]
    exact hinv ag h'
  | update caller allowanceId newLimit newPeriod wf h =>
    intro ag h'
    rw [(updateAllowance_frame _ _ _ _ _ _ h).1]
    exact hinv ag h'
  | revoke caller allowanceId wf h =>
    intro ag h'
    rw [(revokeAllowance_frame _ _ _ _ h).1]
    exact hinv ag h'
  | configMS caller agent threshold signers wf h =>
    intro ag h'
    rw [(configureMultiSig_frame _ _ _ _ _ _ h).1 ag h']
    exact hinv ag h'
  | approve caller txHash agent wf h =>
    intro ag h'
    rcases (approveTransaction_cases _ _ _ _ _ h).1 ag h' with he | ⟨h0, h1⟩
    · rw [he]
      exact hinv ag h'
    · rw [h1]
  | invCreate caller now recipient amount description dueDate pp res h =>
    intro ag h'
    rw [(createInvoice_frame _ _ _ _ _ _ _ _ _ h).1]
    exact hinv ag h'
  | invSend caller invoiceId wf h =>
    intro ag h'
    rw [(sendInvoice_frame _ _ _ _ h).1]
    exact hinv ag h'
  | invPay caller invoiceId amount wf h =>
    intro ag h'
    rw [(payInvoice_frame _ _ _ _ _ h).1]
    exact hinv ag h'
  | invCancel caller invoiceId wf h =>
    intro ag h'
    rw [(cancelInvoice_frame _ _ _ _ h).1]
    exact hinv ag h'
  | invDispute caller now invoiceId reason validators wf h =>
    intro ag h'
    rw [(raiseDispute_frame _ _ _ _ _ _ _ h).1]
    exact hinv ag h'
  | invResolve caller invoiceId refund wf h =>
    intro ag h'
    rw [(resolveDispute_frame _ _ _ _ _ h).1]
    exact hinv ag h'
  | invWithdraw caller dst wf h =>
    intro ag h'
    rw [(withdrawFees_frame _ _ _ _ h).1]
    exact hinv ag h'
  | subNew caller now provider amount interval allowanceId res h =>
    intro ag h'
    rw [(subscribe_ms _ _ _ _ _ _ _ _ h).1]
    exact hinv ag h'
  | subBill now subId wf h =>
    intro ag h'
    rw [(attemptBilling_ms _ _ _ _ h).1]
    exact hinv ag h'
  | subBatch now subIds wf h =>
    intro ag h'
    rw [(batchBilling_ms _ _ _ _ h).1]
    exact hinv ag h'
  | subPause caller subId wf h =>
    intro ag h'
    rw [(pauseSubscription_frame _ _ _ _ h).1]
    exact hinv ag h'
  | subResume caller now subId wf h =>
    intro ag h'
    rw [(resumeSubscription_frame _ _ _ _ _ h).1]
    exact hinv ag h'
  | subCancel caller now subId wf h =>
    intro ag h'
    rw [(cancelSubscription_frame _ _ _ _ _ h).1]
    exact hinv ag h'

/-- In every state reachable from deployment, every approvals count is at
most one. -/
theorem reachable_approvals (w0 w : World) (hinit : FullInit w0)
    (hr : Reachable w0 w) : ApprovalsAtMostOne w := by
  induction hr with
  | refl =>
    intro ag h'
    rw [hinit.1]
    exact Nat.zero_le 1
  | tail hsteps hstep ih => exact step_approvals _ _ hstep ih

/-- Claim C3: approveTransaction succeeds only while the approval count of
the hash is zero (and leaves it at exactly one); once an approval exists,
any configured signer's further call reverts AlreadyApproved; hence in
every reachable state no hash has more than one approval, and a
threshold-gated spend whose agent has two or more configured signers can
never see approvals[hash] ≥ signers.length: it never succeeds. -/
theorem claim_C3 :
    (∀ (w : World) caller txHash agent w',
      approveTransaction w caller txHash agent = .ok w' →
      (w.alw.multiSigConfigs agent).approvals txHash = 0 ∧
      (w'.alw.multiSigConfigs agent).approvals txHash = 1) ∧
    (∀ (w : World) caller txHash agent,
      caller ∈ (w.alw.multiSigConfigs agent).signers →
      0 < (w.alw.multiSigConfigs agent).approvals txHash →
      approveTransaction w caller txHash agent
        = .error (.alreadyApproved txHash caller)) ∧
    (∀ w0 w : World, FullInit w0 → Reachable w0 w →
      ∀ agent txHash, (w.alw.multiSigConfigs agent).approvals txHash ≤ 1) ∧
    (∀ w0 w : World, FullInit w0 → Reachable w0 w →
      ∀ caller now allowanceId recipient amount,
        0 < (w.alw.multiSigConfigs (w.alw.allowances allowanceId).agent).threshold →
        (w.alw.multiSigConfigs (w.alw.allowances allowanceId).agent).threshold ≤ amount →
        2 ≤ (w.alw.multiSigConfigs (w.alw.allowances allowanceId).agent).signers.length →
        ∀ w', spend w caller now allowanceId recipient amount ≠ .ok w') := by
  refine ⟨?_, ?_, ?_, ?_⟩
  · intro w caller txHash agent w' h
    simp only [approveTransaction] at h
    repeat' (split at h)
    all_goals try (cases h)
    all_goals (constructor <;> simp_all [upd] <;> omega)
  · intro w caller txHash agent hmem h0
    simp only [approveTransaction]
    rw [if_pos hmem, if_pos h0]
  · intro w0 w hinit hr agent txHash
    exact reachable_approvals w0 w hinit hr agent txHash
  · intro w0 w hinit hr caller now allowanceId recipient amount hthr hamt hlen w' hok
    have hle := reachable_approvals w0 w hinit hr
      (w.alw.allowances allowanceId).agent
      { allowanceId := allowanceId, recipient := recipient, amount := amount, ts := now }
    exact spend_gate_blocks w caller now allowanceId recipient amount hthr hamt
      (by omega) w' hok

def c3hash : TxHash := { allowanceId := 0, recipient := 30, amount := 10, ts := 0 }

def c3w1 : World := okOr2 (createAllowance baseWorld 10 0 20 100 .daily false) baseWorld

def c3w2 : World := okOr (configureMultiSig c3w1 10 20 5 [31, 32]) baseWorld

def c3w3 : World := okOr (approveTransaction c3w2 31 c3hash 20) baseWorld

theorem c3w2_reachable : Reachable baseWorld c3w2 :=
  Relation.ReflTransGen.tail
    (Relation.ReflTransGen.tail (Relation.ReflTransGen.refl)
      (FullStep.create baseWorld 10 0 20 100 .daily false (c3w1, 0) rfl))
    (FullStep.configMS c3w1 10 20 5 [31, 32] c3w2 rfl)

/-- Claim C3, witness: on the concrete configuration with threshold 5 and
signers 31, 32, signer 31's approval takes the count from 0 to 1, signer
32's second approval reverts AlreadyApproved, the reachable state c3w2 has
every count at most 1, and agent 20's 10-token spend (at or above the
threshold with 2 configured signers) cannot succeed. -/
theorem claim_C3_witness :
    ((c3w2.alw.multiSigConfigs 20).approvals c3hash = 0 ∧
      (c3w3.alw.multiSigConfigs 20).approvals c3hash = 1) ∧
    approveTransaction c3w3 32 c3hash 20 = .error (.alreadyApproved c3hash 32) ∧
    (c3w2.alw.multiSigConfigs 20).approvals c3hash ≤ 1 ∧
    spend c3w2 20 0 0 30 10 ≠ .ok c3w2 := by
  refine ⟨?_, ?_, ?_, ?_⟩
  · exact claim_C3.1 c3w2 31 c3hash 20 c3w3 rfl
  · exact claim_C3.2.1 c3w3 32 c3hash 20 (by decide) (by decide)
  · exact claim_C3.2.2.1 baseWorld c3w2 ⟨rfl, rfl, rfl⟩ c3w2_reachable 20 c3hash
  · exact claim_C3.2.2.2 baseWorld c3w2 ⟨rfl, rfl, rfl⟩ c3w2_reachable 20 0 0 30 10
      (by decide) (by decide) (by decide) c3w2

/-- The subscription record as a failed billing rewrites it
(RecurringPayments._attemptBilling failure branches). -/
def failedSub (sub : Subscription) : Subscription :=
  { sub with failedBillings := sub.failedBillings + 1, state := if MAX_FAILED_BILLINGS ≤ sub.failedBillings + 1 then SubState.expired else sub.state }

/-- Interval durations are positive. -/
theorem intervalDuration_pos (iv : Interval) : 0 < getIntervalDuration iv := by
  cases iv <;> decide

/-- Every committed billing attempt is one of: a silent not-yet-due return,
a successful billing (through a successful spend), or a recorded failure. -/
theorem attemptBilling_out (w : World) (now subId : Nat) (w' : World)
    (h : attemptBilling w now subId = .ok w') :
    w' = w ∨
    (∃ w2, spend w w.billerAddr now (w.bill.subscriptions subId).allowanceId
        (w.bill.subscriptions subId).provider (w.bill.subscriptions subId).amount = .ok w2 ∧
      w' = setSub w2 subId (billedSub (w2.bill.subscriptions subId) now) ∧
      w2.bill = w.bill ∧
      (w.bill.subscriptions subId).state = SubState.active ∧
      (w.bill.subscriptions subId).failedBillings < MAX_FAILED_BILLINGS) ∨
    ((w.bill.subscriptions subId).state = SubState.active ∧
      (w.bill.subscriptions subId).failedBillings < MAX_FAILED_BILLINGS ∧
      w' = setSub w subId (failedSub (w.bill.subscriptions subId))) := by
  unfold attemptBilling at h
  simp only [] at h
  by_cases c1 : (w.bill.subscriptions subId).state ≠ SubState.active
  · rw [if_pos c1] at h
    cases h
  · rw [if_neg c1] at h
    rw [not_not] at c1
    by_cases c2 : now < (w.bill.subscriptions subId).nextBilling
    · rw [if_pos c2] at h
      cases h
      exact Or.inl rfl
    · rw [if_neg c2] at h
      by_cases c3 : MAX_FAILED_BILLINGS ≤ (w.bill.subscriptions subId).failedBillings
      · rw [if_pos c3] at h
        cases h
      · rw [if_neg c3] at h
        cases hr : getRemainingAllowance w now (w.bill.subscriptions subId).allowanceId with
        | error e =>
          simp only [hr] at h
          cases h
        | ok remaining =>
          simp only [hr] at h
          by_cases c4 : remaining < (w.bill.subscriptions subId).amount
          · rw [if_pos c4] at h
            cases h
            exact Or.inr (Or.inr ⟨c1, by omega, rfl⟩)
          · rw [if_neg c4] at h
            cases hs : spend w w.billerAddr now (w.bill.subscriptions subId).allowanceId
                (w.bill.subscriptions subId).provider (w.bill.subscriptions subId).amount with
            | ok w2 =>
              simp only [hs] at h
              have hf := spend_ok_frame _ _ _ _ _ _ _ hs
              by_cases c5 : UMAX ≤ now + getIntervalDuration (w2.bill.subscriptions subId).interval
              · rw [if_pos c5] at h
                cases h
              · rw [if_neg c5] at h
                by_cases c6 : UMAX ≤ (w2.bill.subscriptions subId).totalPaid
                    + (w2.bill.subscriptions subId).amount
                · rw [if_pos c6] at h
                  cases h
                · rw [if_neg c6] at h
                  cases h
                  exact Or.inr (Or.inl ⟨w2, rfl, rfl, hf.1, c1, by omega⟩)
            | error e =>
              simp only [hs] at h
              by_cases c5 : isStringError e = true
              · rw [if_pos c5] at h
                cases h
                exact Or.inr (Or.inr ⟨c1, by omega, rfl⟩)
              · rw [if_neg c5] at h
                cases h

/-- The per-subscription failure bound: while ACTIVE or PAUSED the failure
counter is strictly below MAX_FAILED_BILLINGS. -/
def SubInv (w : World) : Prop :=
  ∀ i, ((w.bill.subscriptions i).state = SubState.active ∨
        (w.bill.subscriptions i).state = SubState.paused) →
    (w.bill.subscriptions i).failedBillings < MAX_FAILED_BILLINGS

/-- SubInv only looks at the biller storage. -/
theorem subinv_of_bill_eq (w w' : World) (hb : w'.bill = w.bill)
    (hinv : SubInv w) : SubInv w' := by
  intro i
  rw [hb]
  exact hinv i

/-- A committed billing attempt preserves the failure bound: a recorded
failure either stays below the bound or expires the subscription in the
same step, and a success resets the counter. -/
theorem attemptBilling_subinv (w : World) (now subId : Nat) (w' : World)
    (h : attemptBilling w now subId = .ok w') (hinv : SubInv w) : SubInv w' := by
  rcases attemptBilling_out w now subId w' h with rfl | ⟨w2, hs, rfl, hb, hact, hfb⟩ | ⟨hact, hfb, rfl⟩
  · exact hinv
  · intro i hi
    by_cases hij : i = subId
    · subst hij
      simp [setSub, billedSub, upd]
      decide
    · simp only [setSub, upd] at hi ⊢
      rw [if_neg hij] at hi ⊢
      rw [hb] at hi ⊢
      exact hinv i hi
  · intro i hi
    by_cases hij : i = subId
    · subst hij
      simp [setSub, failedSub, upd] at hi ⊢
      split at hi
      · rcases hi with hi | hi <;> cases hi
      · omega
    · simp only [setSub, upd] at hi ⊢
      rw [if_neg hij] at hi ⊢
      exact hinv i hi

/-- A committed billing attempt never moves a subscription out of EXPIRED. -/
theorem attemptBilling_exp (w : World) (now subId : Nat) (w' : World)
    (h : attemptBilling w now subId = .ok w') :
    ∀ i, (w.bill.subscriptions i).state = SubState.expired →
      (w'.bill.subscriptions i).state = SubState.expired := by
  rcases attemptBilling_out w now subId w' h with rfl | ⟨w2, hs, rfl, hb, hact, hfb⟩ | ⟨hact, hfb, rfl⟩
  · intro i hi
    exact hi
  · intro i hi
    by_cases hij : i = subId
    · subst hij
      rw [hact] at hi
      cases hi
    · simp only [setSub, upd]
      rw [if_neg hij, hb]
      exact hi
  · intro i hi
    by_cases hij : i = subId
    · subst hij
      rw [hact] at hi
      cases hi
    · simp only [setSub, upd]
      rw [if_neg hij]
      exact hi

/-- A committed pauseSubscription: the subscription was ACTIVE and only its
state flips to PAUSED. -/
theorem pauseSubscription_out (w : World) (caller : Addr) (subId : Nat)
    (w' : World) (h : pauseSubscription w caller subId = .ok w') :
    (w.bill.subscriptions subId).state = SubState.active ∧
    w' = setSub w subId { w.bill.subscriptions subId with state := SubState.paused } := by
  simp only [pauseSubscription] at h
  repeat' (split at h)
  all_goals try (cases h)
  all_goals exact ⟨by simp_all, rfl⟩

/-- A committed resumeSubscription: the subscription was PAUSED and becomes
ACTIVE with nextBilling rescheduled; failedBillings is untouched. -/
theorem resumeSubscription_out (w : World) (caller : Addr) (now subId : Nat)
    (w' : World) (h : resumeSubscription w caller now subId = .ok w') :
    (w.bill.subscriptions subId).state = SubState.paused ∧
    w' = setSub w subId { w.bill.subscriptions subId with state := SubState.active, nextBilling := now + getIntervalDuration (w.bill.subscriptions subId).interval } := by
  simp only [resumeSubscription] at h
  repeat' (split at h)
  all_goals try (cases h)
  all_goals exact ⟨by simp_all, rfl⟩

/-- A committed cancelSubscription: the subscription was ACTIVE or PAUSED
and the biller storage changes only by flipping its state to CANCELLED. -/
theorem cancelSubscription_bill (w : World) (caller : Addr) (now subId : Nat)
    (w' : World) (h : cancelSubscription w caller now subId = .ok w') :
    ((w.bill.subscriptions subId).state = SubState.active ∨
      (w.bill.subscriptions subId).state = SubState.paused) ∧
    w'.bill.subscriptions = upd w.bill.subscriptions subId { w.bill.subscriptions subId with state := SubState.cancelled } := by
  simp only [cancelSubscription] at h
  repeat' (split at h)
  all_goals try (cases h)
  all_goals exact ⟨by tauto, rfl⟩

/-- A not-yet-due attempt on an ACTIVE subscription returns silently. -/
theorem attemptBilling_notdue (w : World) (now subId : Nat)
    (h1 : (w.bill.subscriptions subId).state = SubState.active)
    (h2 : now < (w.bill.subscriptions subId).nextBilling) :
    attemptBilling w now subId = .ok w := by
  unfold attemptBilling
  simp only []
  rw [if_neg (by simp [h1]), if_pos h2]

/-- A committed subscribe writes exactly one fresh ACTIVE subscription with
zero failures at the current id counter (the immediate first billing
attempt is a silent no-op because the fresh subscription is not yet due). -/
theorem subscribe_bill (w : World) (caller : Addr) (now : Nat)
    (provider : Addr) (amount : Nat) (interval : Interval) (allowanceId : Nat)
    (res : World × Nat)
    (h : subscribe w caller now provider amount interval allowanceId = .ok res) :
    res.1.bill.subscriptions = upd w.bill.subscriptions w.bill.subscriptionIdCounter { id := w.bill.subscriptionIdCounter, subscriber := caller, provider := provider, amount := amount, interval := interval, state := SubState.active, allowanceId := allowanceId, createdAt := now, nextBilling := now + getIntervalDuration interval, lastBilled := 0, failedBillings := 0, totalPaid := 0 } ∧
    res.2 = w.bill.subscriptionIdCounter := by
  unfold subscribe at h
  simp only [] at h
  by_cases c1 : provider = 0
  · rw [if_pos c1] at h
    cases h
  · rw [if_neg c1] at h
    by_cases c2 : provider = caller
    · rw [if_pos c2] at h
      cases h
    · rw [if_neg c2] at h
      by_cases c3 : amount = 0
      · rw [if_pos c3] at h
        cases h
      · rw [if_neg c3] at h
        by_cases c4 : (w.alw.allowances allowanceId).active = false
        · rw [if_pos c4] at h
          cases h
        · rw [if_neg c4] at h
          by_cases c5 : (w.alw.allowances allowanceId).agent ≠ caller
          · rw [if_pos c5] at h
            cases h
          · rw [if_neg c5] at h
            by_cases c6 : UMAX ≤ w.bill.subscriptionIdCounter + 1
            · rw [if_pos c6] at h
              cases h
            · rw [if_neg c6] at h
              by_cases c7 : UMAX ≤ now + getIntervalDuration interval
              · rw [if_pos c7] at h
                cases h
              · rw [if_neg c7] at h
                rw [attemptBilling_notdue _ now w.bill.subscriptionIdCounter
                  (by simp [upd]) (by simp [upd]; exact intervalDuration_pos interval)] at h
                cases h
                exact ⟨rfl, rfl⟩

/-- batchBilling preserves the failure bound. -/
theorem batchBilling_subinv (now : Nat) :
    ∀ (ids : List Nat) (w w' : World), batchBilling now w ids = .ok w' →
      SubInv w → SubInv w' := by
  intro ids w w' h hinv
  rw [batchBilling_id now ids w] at h
  injection h with h
  subst h
  exact hinv

/-- batchBilling never moves a subscription out of EXPIRED. -/
theorem batchBilling_exp (now : Nat) :
    ∀ (ids : List Nat) (w w' : World), batchBilling now w ids = .ok w' →
      ∀ i, (w.bill.subscriptions i).state = SubState.expired →
        (w'.bill.subscriptions i).state = SubState.expired := by
  intro ids w w' h i hi
  rw [batchBilling_id now ids w] at h
  injection h with h
  subst h
  exact hi

/-- subscribe preserves the failure bound (the fresh subscription starts at
zero failures). -/
theorem subscribe_subinv (w : World) (caller : Addr) (now : Nat)
    (provider : Addr) (amount : Nat) (interval : Interval) (allowanceId : Nat)
    (res : World × Nat)
    (h : subscribe w caller now provider amount interval allowanceId = .ok res)
    (hinv : SubInv w) : SubInv res.1 := by
  intro i hi
  rw [(subscribe_bill _ _ _ _ _ _ _ _ h).1] at hi ⊢
  by_cases hij : i = w.bill.subscriptionIdCounter
  · subst hij
    simp [upd]
    decide
  · rw [upd_other _ _ _ _ hij] at hi ⊢
    exact hinv i hi

/-- Every public operation of the system preserves the failure bound. -/
theorem step_subinv (w w' : World) (hs : FullStep w w') (hinv : SubInv w) :
    SubInv w' := by
  cases hs with
  | create caller now agent limit period ro res h =>
    exact subinv_of_bill_eq _ _ (createAllowance_frame _ _ _ _ _ _ _ _ h).2.1 hinv
  | spendS caller now allowanceId recipient amount wf h =>
    exact subinv_of_bill_eq _ _ (spend_ok_frame _ _ _ _ _ _ _ h).1 hinv
  | update caller allowanceId newLimit newPeriod wf h =>
    exact subinv_of_bill_eq _ _ (updateAllowance_frame _ _ _ _ _ _ h).2.1 hinv
  | revoke caller allowanceId wf h =>
    exact subinv_of_bill_eq _ _ (revokeAllowance_frame _ _ _ _ h).2.1 hinv
  | configMS caller agent threshold signers wf h =>
    exact subinv_of_bill_eq _ _ (configureMultiSig_frame _ _ _ _ _ _ h).2.1 hinv
  | approve caller txHash agent wf h =>
    exact subinv_of_bill_eq _ _ (approveTransaction_cases _ _ _ _ _ h).2.1 hinv
  | invCreate caller now recipient amount description dueDate pp res h =>
    exact subinv_of_bill_eq _ _ (createInvoice_frame _ _ _ _ _ _ _ _ _ h).2.1 hinv
  | invSend caller invoiceId wf h =>
    exact subinv_of_bill_eq _ _ (sendInvoice_frame _ _ _ _ h).2.1 hinv
  | invPay caller invoiceId amount wf h =>
    exact subinv_of_bill_eq _ _ (payInvoice_frame _ _ _ _ _ h).2.1 hinv
  | invCancel caller invoiceId wf h =>
    exact subinv_of_bill_eq _ _ (cancelInvoice_frame _ _ _ _ h).2.1 hinv
  | invDispute caller now invoiceId reason validators wf h =>
    exact subinv_of_bill_eq _ _ (raiseDispute_frame _ _ _ _ _ _ _ h).2.1 hinv
  | invResolve caller invoiceId refund wf h =>
    exact subinv_of_bill_eq _ _ (resolveDispute_frame _ _ _ _ _ h).2.1 hinv
  | invWithdraw caller dst wf h =>
    exact subinv_of_bill_eq _ _ (withdrawFees_frame _ _ _ _ h).2.1 hinv
  | subNew caller now provider amount interval allowanceId res h =>
    exact subscribe_subinv _ _ _ _ _ _ _ _ h hinv
  | subBill now subId wf h =>
    exact attemptBilling_subinv _ _ _ _ h hinv
  | subBatch now subIds wf h =>
    exact batchBilling_subinv now subIds _ _ h hinv
  | subPause caller subId wf h =>
    rcases pauseSubscription_out _ _ _ _ h with ⟨hact, rfl⟩
    intro i hi
    by_cases hij : i = subId
    · subst hij
      simp only [setSub, upd] at hi ⊢
      simp at hi ⊢
      have := hinv i (Or.inl hact)
      omega
    · simp only [setSub, upd] at hi ⊢
      rw [if_neg hij] at hi ⊢
      exact hinv i hi
  | subResume caller now subId wf h =>
    rcases resumeSubscription_out _ _ _ _ _ h with ⟨hpau, rfl⟩
    intro i hi
    by_cases hij : i = subId
    · subst hij
      simp only [setSub, upd] at hi ⊢
      simp at hi ⊢
      have := hinv i (Or.inr hpau)
      omega
    · simp only [setSub, upd] at hi ⊢
      rw [if_neg hij] at hi ⊢
      exact hinv i hi
  | subCancel caller now subId wf h =>
    rcases cancelSubscription_bill _ _ _ _ _ h with ⟨hst, hb⟩
    intro i hi
    rw [hb] at hi ⊢
    by_cases hij : i = subId
    · subst hij
      simp [upd] at hi
    · rw [upd_other _ _ _ _ hij] at hi ⊢
      exact hinv i hi

/-- In every reachable state, every ACTIVE or PAUSED subscription has
failedBillings strictly below MAX_FAILED_BILLINGS. -/
theorem reachable_subinv (w0 w : World) (hinit : FullInit w0)
    (hr : Reachable w0 w) : SubInv w := by
  induction hr with
  | refl =>
    intro i hi
    rw [hinit.2.1]
    show (0 : Nat) < MAX_FAILED_BILLINGS
    decide
  | tail hsteps hstep ih => exact step_subinv _ _ hstep ih

def c8w1 : World := okOr2 (createAllowance baseWorld 40 0 2 100 .daily false) baseWorld

def c8w2 : World := okOr2 (createAllowance c8w1 41 0 42 100 .daily false) baseWorld

def c8w3 : World := okOr (processBilling c8w2 10 0) baseWorld

def c8w4 : World := okOr (processBilling c8w3 10 0) baseWorld

def c8w5 : World := okOr (processBilling c8w4 10 0) baseWorld

def c8w6 : World := okOr2 (subscribe c8w5 42 10 43 5 .daily 1) baseWorld

/-- Claim C8, counterexample to its no-resurrection clause: after someone
creates allowance 0 for the biller contract address itself, three
processBilling calls on the never-subscribed default slot 0 drive that
record's failedBillings to 3 and its state to EXPIRED (the nested spend
reverts with the require-string "Invalid recipient", which the billing
code catches and counts); the next subscribe then reuses id 0 (the counter
was never advanced) and overwrites the EXPIRED record with a fresh ACTIVE
one — an operation sequence under which a subscription record goes from
EXPIRED back to ACTIVE. -/
theorem claim_C8_counterexample :
    createAllowance baseWorld 40 0 2 100 Period.daily false = .ok (c8w1, 0) ∧
    createAllowance c8w1 41 0 42 100 Period.daily false = .ok (c8w2, 1) ∧
    processBilling c8w2 10 0 = .ok c8w3 ∧
    processBilling c8w3 10 0 = .ok c8w4 ∧
    processBilling c8w4 10 0 = .ok c8w5 ∧
    (c8w5.bill.subscriptions 0).state = SubState.expired ∧
    subscribe c8w5 42 10 43 5 Interval.daily 1 = .ok (c8w6, 0) ∧
    (c8w6.bill.subscriptions 0).state = SubState.active := by
  refine ⟨rfl, rfl, rfl, rfl, rfl, by decide, rfl, by decide⟩

/-- Claim C8 (amended): in every reachable state every ACTIVE subscription
record has failedBillings < MAX_FAILED_BILLINGS (a failed attempt that
reaches the bound expires the record in the same step); processBilling,
batchBilling, pauseSubscription, resumeSubscription and cancelSubscription
never move a record out of EXPIRED; and the only way subscribe touches an
EXPIRED record is id reuse of a never-subscribed default slot at the
current counter, installing a fresh ACTIVE record with failedBillings = 0
(claim_C8_counterexample shows this resurrection is reachable). -/
theorem claim_C8_amended :
    (∀ w0 w : World, FullInit w0 → Reachable w0 w →
      ∀ i, (w.bill.subscriptions i).state = SubState.active →
        (w.bill.subscriptions i).failedBillings < MAX_FAILED_BILLINGS) ∧
    (∀ (w : World) now subId w', processBilling w now subId = .ok w' →
      ∀ i, (w.bill.subscriptions i).state = SubState.expired →
        (w'.bill.subscriptions i).state = SubState.expired) ∧
    (∀ now ids (w w' : World), batchBilling now w ids = .ok w' →
      ∀ i, (w.bill.subscriptions i).state = SubState.expired →
        (w'.bill.subscriptions i).state = SubState.expired) ∧
    (∀ (w : World) caller subId w', pauseSubscription w caller subId = .ok w' →
      ∀ i, (w.bill.subscriptions i).state = SubState.expired →
        (w'.bill.subscriptions i).state = SubState.expired) ∧
    (∀ (w : World) caller now subId w', resumeSubscription w caller now subId = .ok w' →
      ∀ i, (w.bill.subscriptions i).state = SubState.expired →
        (w'.bill.subscriptions i).state = SubState.expired) ∧
    (∀ (w : World) caller now subId w', cancelSubscription w caller now subId = .ok w' →
      ∀ i, (w.bill.subscriptions i).state = SubState.expired →
        (w'.bill.subscriptions i).state = SubState.expired) ∧
    (∀ (w : World) caller now provider amount interval allowanceId res,
      subscribe w caller now provider amount interval allowanceId = .ok res →
      ∀ i, (w.bill.subscriptions i).state = SubState.expired →
        ((res.1.bill.subscriptions i).state = SubState.expired ∨
          (i = w.bill.subscriptionIdCounter ∧
            (res.1.bill.subscriptions i).state = SubState.active ∧
            (res.1.bill.subscriptions i).failedBillings = 0))) := by
  refine ⟨?_, ?_, ?_, ?_, ?_, ?_, ?_⟩
  · intro w0 w hinit hr i hact
    exact reachable_subinv w0 w hinit hr i (Or.inl hact)
  · intro w now subId w' h i hi
    exact attemptBilling_exp w now subId w' h i hi
  · intro now ids w w' h i hi
    exact batchBilling_exp now ids w w' h i hi
  · intro w caller subId w' h i hi
    rcases pauseSubscription_out _ _ _ _ h with ⟨hact, rfl⟩
    by_cases hij : i = subId
    · subst hij
      rw [hact] at hi
      cases hi
    · simp only [setSub, upd]
      rw [if_neg hij]
      exact hi
  · intro w caller now subId w' h i hi
    rcases resumeSubscription_out _ _ _ _ _ h with ⟨hpau, rfl⟩
    by_cases hij : i = subId
    · subst hij
      rw [hpau] at hi
      cases hi
    · simp only [setSub, upd]
      rw [if_neg hij]
      exact hi
  · intro w caller now subId w' h i hi
    rcases cancelSubscription_bill _ _ _ _ _ h with ⟨hst, hb⟩
    rw [hb]
    by_cases hij : i = subId
    · subst hij
      rcases hst with hst | hst <;> (rw [hst] at hi; cases hi)
    · rw [upd_other _ _ _ _ hij]
      exact hi
  · intro w caller now provider amount interval allowanceId res h i hi
    rw [(subscribe_bill _ _ _ _ _ _ _ _ h).1]
    by_cases hij : i = w.bill.subscriptionIdCounter
    · subst hij
      right
      refine ⟨rfl, ?_, ?_⟩ <;> simp [upd]
    · left
      rw [upd_other _ _ _ _ hij]
      exact hi

/-- Claim C8 (amended), witness: the fresh deployment is reachable from
itself and its default subscription record 0 is ACTIVE with 0 < 3
failures; and a concrete committed pauseSubscription (on slot 1 of the
state c8w5, whose record 0 is EXPIRED) leaves record 0 EXPIRED. -/
theorem claim_C8_amended_witness :
    (baseWorld.bill.subscriptions 0).failedBillings < MAX_FAILED_BILLINGS ∧
    ((okOr (pauseSubscription c8w5 0 1) baseWorld).bill.subscriptions 0).state = SubState.expired := by
  constructor
  · exact claim_C8_amended.1 baseWorld baseWorld ⟨rfl, rfl, rfl⟩ Relation.ReflTransGen.refl 0 rfl
  · exact claim_C8_amended.2.2.2.1 c8w5 0 1 (okOr (pauseSubscription c8w5 0 1) baseWorld) rfl 0 (by decide)

/-- Invariant for claim C10: the biller holds no tokens, and no
subscription record can ever spend on the biller's behalf (its provider is
the zero address, so the nested spend stops at the recipient check, or its
allowance's agent is not the biller, so the nested spend stops at the
authorization check). -/
def C10Inv (w : World) : Prop :=
  w.token.balances w.billerAddr = 0 ∧
  ∀ i, (w.bill.subscriptions i).provider = 0 ∨
    (w.alw.allowances (w.bill.subscriptions i).allowanceId).agent ≠ w.billerAddr

/-- What a biller operation that cannot execute a successful spend leaves
untouched: the token, the allowance storage, the biller address, and each
record's provider and allowanceId. -/
def C10Frame (w w' : World) : Prop :=
  w'.token = w.token ∧ w'.alw = w.alw ∧ w'.billerAddr = w.billerAddr ∧
  ∀ i, (w'.bill.subscriptions i).provider = (w.bill.subscriptions i).provider ∧
    (w'.bill.subscriptions i).allowanceId = (w.bill.subscriptions i).allowanceId

theorem C10Frame.trans {w w2 w' : World} (h1 : C10Frame w w2)
    (h2 : C10Frame w2 w') : C10Frame w w' := by
  refine ⟨h2.1.trans h1.1, h2.2.1.trans h1.2.1, h2.2.2.1.trans h1.2.2.1, ?_⟩
  intro i
  exact ⟨(h2.2.2.2 i).1.trans (h1.2.2.2 i).1, (h2.2.2.2 i).2.trans (h1.2.2.2 i).2⟩

theorem C10Inv.of_frame {w w' : World} (hinv : C10Inv w) (hf : C10Frame w w') :
    C10Inv w' := by
  refine ⟨?_, ?_⟩
  · rw [hf.1, hf.2.2.1]
    exact hinv.1
  · intro i
    rw [(hf.2.2.2 i).1, (hf.2.2.2 i).2, hf.2.1, hf.2.2.1]
    exact hinv.2 i

/-- Under C10Inv a billing attempt cannot reach a successful spend, so it
only ever touches failure counters and states. -/
theorem attemptBilling_c10 (w : World) (now subId : Nat) (w' : World)
    (hinv : C10Inv w) (h : attemptBilling w now subId = .ok w') :
    C10Frame w w' := by
  rcases attemptBilling_out w now subId w' h with rfl | ⟨w2, hs, rfl, hb, hact, hfb⟩ | ⟨hact, hfb, rfl⟩
  · exact ⟨rfl, rfl, rfl, fun i => ⟨rfl, rfl⟩⟩
  · exfalso
    rcases spend_ok_agent _ _ _ _ _ _ _ hs with ⟨hag, hrcp⟩
    rcases hinv.2 subId with hp | hn
    · exact hrcp hp
    · exact hn hag.symm
  · refine ⟨rfl, rfl, rfl, ?_⟩
    intro i
    by_cases hij : i = subId
    · subst hij
      simp [setSub, failedSub, upd]
    · simp only [setSub, upd]
      rw [if_neg hij]
      exact ⟨rfl, rfl⟩

/-- A committed cancelSubscription of a biller that holds no tokens paid no
refund (a positive refund transfer out of a zero balance reverts), so it
only flips the record's state. -/
theorem cancelSubscription_c10 (w : World) (caller : Addr) (now subId : Nat)
    (w' : World) (hz : w.token.balances w.billerAddr = 0)
    (h : cancelSubscription w caller now subId = .ok w') : C10Frame w w' := by
  have hfields : ∀ i, ((setSub w subId { w.bill.subscriptions subId with state := SubState.cancelled }).bill.subscriptions i).provider = (w.bill.subscriptions i).provider ∧ ((setSub w subId { w.bill.subscriptions subId with state := SubState.cancelled }).bill.subscriptions i).allowanceId = (w.bill.subscriptions i).allowanceId := by
    intro i
    by_cases hij : i = subId
    · subst hij
      simp [setSub, upd]
    · simp only [setSub, upd]
      rw [if_neg hij]
      exact ⟨rfl, rfl⟩
  simp only [cancelSubscription] at h
  repeat' (split at h)
  all_goals try (cases h)
  all_goals try (exact ⟨rfl, rfl, rfl, hfields⟩)
  all_goals
    (rename_i tk htk
     simp only [Token.transfer] at htk
     rw [hz] at htk
     rw [if_neg (by omega)] at htk
     cases htk)

/-- A committed subscribe by a caller other than the biller itself writes a
fresh record whose allowance agent is that caller, and moves no tokens. -/
theorem subscribe_out (w : World) (caller : Addr) (now : Nat)
    (provider : Addr) (amount : Nat) (interval : Interval) (allowanceId : Nat)
    (res : World × Nat)
    (h : subscribe w caller now provider amount interval allowanceId = .ok res) :
    res.1.token = w.token ∧ res.1.alw = w.alw ∧ res.1.billerAddr = w.billerAddr ∧
    (w.alw.allowances allowanceId).agent = caller ∧
    res.1.bill.subscriptions = upd w.bill.subscriptions w.bill.subscriptionIdCounter { id := w.bill.subscriptionIdCounter, subscriber := caller, provider := provider, amount := amount, interval := interval, state := SubState.active, allowanceId := allowanceId, createdAt := now, nextBilling := now + getIntervalDuration interval, lastBilled := 0, failedBillings := 0, totalPaid := 0 } := by
  unfold subscribe at h
  simp only [] at h
  by_cases c1 : provider = 0
  · rw [if_pos c1] at h
    cases h
  · rw [if_neg c1] at h
    by_cases c2 : provider = caller
    · rw [if_pos c2] at h
      cases h
    · rw [if_neg c2] at h
      by_cases c3 : amount = 0
      · rw [if_pos c3] at h
        cases h
      · rw [if_neg c3] at h
        by_cases c4 : (w.alw.allowances allowanceId).active = false
        · rw [if_pos c4] at h
          cases h
        · rw [if_neg c4] at h
          by_cases c5 : (w.alw.allowances allowanceId).agent ≠ caller
          · rw [if_pos c5] at h
            cases h
          · rw [if_neg c5] at h
            by_cases c6 : UMAX ≤ w.bill.subscriptionIdCounter + 1
            · rw [if_pos c6] at h
              cases h
            · rw [if_neg c6] at h
              by_cases c7 : UMAX ≤ now + getIntervalDuration interval
              · rw [if_pos c7] at h
                cases h
              · rw [if_neg c7] at h
                rw [attemptBilling_notdue _ now w.bill.subscriptionIdCounter
                  (by simp [upd]) (by simp [upd]; exact intervalDuration_pos interval)] at h
                cases h
                exact ⟨rfl, rfl, rfl, not_not.mp c5, rfl⟩

/-- batchBilling under C10Inv performs no transfers and no allowance
writes. -/
theorem batchBilling_c10 (now : Nat) :
    ∀ (ids : List Nat) (w w' : World), batchBilling now w ids = .ok w' →
      C10Inv w → C10Frame w w' := by
  intro ids w w' h hinv
  rw [batchBilling_id now ids w] at h
  injection h with h
  subst h
  exact ⟨rfl, rfl, rfl, fun i => ⟨rfl, rfl⟩⟩

/-- Every biller operation preserves C10Inv. -/
theorem billerstep_c10 (w w' : World) (hs : BillerStep w w')
    (hinv : C10Inv w) : C10Inv w' := by
  cases hs with
  | subNew caller now provider amount interval allowanceId res hc h =>
    rcases subscribe_out _ _ _ _ _ _ _ _ h with ⟨ht, ha, hba, hag, hsubs⟩
    refine ⟨?_, ?_⟩
    · rw [ht, hba]
      exact hinv.1
    · intro i
      rw [hsubs, ha, hba]
      by_cases hij : i = w.bill.subscriptionIdCounter
      · subst hij
        rw [upd_same]
        right
        rw [hag]
        exact hc
      · rw [upd_other _ _ _ _ hij]
        exact hinv.2 i
  | subBill now subId wf h =>
    exact hinv.of_frame (attemptBilling_c10 _ _ _ _ hinv h)
  | subBatch now subIds wf h =>
    exact hinv.of_frame (batchBilling_c10 now subIds _ _ h hinv)
  | subPause caller subId wf h =>
    rcases pauseSubscription_out _ _ _ _ h with ⟨hact, rfl⟩
    refine hinv.of_frame ⟨rfl, rfl, rfl, ?_⟩
    intro i
    by_cases hij : i = subId
    · subst hij
      simp [setSub, upd]
    · simp only [setSub, upd]
      rw [if_neg hij]
      exact ⟨rfl, rfl⟩
  | subResume caller now subId wf h =>
    rcases resumeSubscription_out _ _ _ _ _ h with ⟨hpau, rfl⟩
    refine hinv.of_frame ⟨rfl, rfl, rfl, ?_⟩
    intro i
    by_cases hij : i = subId
    · subst hij
      simp [setSub, upd]
    · simp only [setSub, upd]
      rw [if_neg hij]
      exact ⟨rfl, rfl⟩
  | subCancel caller now subId wf h =>
    exact hinv.of_frame (cancelSubscription_c10 _ _ _ _ _ hinv.1 h)

/-- In every state reachable through the biller's operations alone from an
unfunded deployment, C10Inv holds. -/
theorem biller_reachable_c10 (w0 w : World) (hinit : BillerInit w0)
    (hr : BillerReachable w0 w) : C10Inv w := by
  induction hr with
  | refl =>
    refine ⟨hinit.2, ?_⟩
    intro i
    rw [hinit.1]
    exact Or.inl rfl
  | tail hsteps hstep ih => exact billerstep_c10 _ _ hstep ih

/-- Claim C10: a successful billing moves tokens straight from the
allowance owner to the provider (spend touches no third balance), no
sequence of biller operations from an unfunded deployment ever puts tokens
into the biller contract itself, and whenever the biller's balance is zero
a cancelSubscription whose computed prorated refund is positive cannot
commit (its refund transfer out of the empty biller balance fails,
reverting the call). -/
theorem claim_C10 :
    (∀ w0 w : World, BillerInit w0 → BillerReachable w0 w →
      w.token.balances w.billerAddr = 0) ∧
    (∀ (w : World) (caller : Addr) (now subId : Nat),
      w.token.balances w.billerAddr = 0 →
      0 < proratedRefund (w.bill.subscriptions subId) now →
      ∀ w', cancelSubscription w caller now subId ≠ .ok w') ∧
    (∀ (w : World) (caller : Addr) (now allowanceId : Nat) (recipient : Addr)
        (amount : Nat) (w'),
      spend w caller now allowanceId recipient amount = .ok w' →
      (∀ x, x ≠ (w.alw.allowances allowanceId).owner → x ≠ recipient →
        w'.token.balances x = w.token.balances x) ∧
      ((w.alw.allowances allowanceId).owner ≠ recipient →
        w'.token.balances recipient = w.token.balances recipient + amount)) := by
  refine ⟨?_, ?_, ?_⟩
  · intro w0 w hinit hr
    exact (biller_reachable_c10 w0 w hinit hr).1
  · intro w caller now subId hz hpos w' hok
    simp only [cancelSubscription] at hok
    repeat' (split at hok)
    all_goals try (cases hok)
    all_goals try
      (rename_i tk htk
       simp only [Token.transfer] at htk
       rw [hz] at htk
       rw [if_neg (by omega)] at htk
       cases htk)
    all_goals simp_all [proratedRefund]
  · intro w caller now allowanceId recipient amount w' h
    exact spend_ok_balances w caller now allowanceId recipient amount w' h

def c10w : World :=
  { baseWorld with bill := { initBillerSt with subscriptionIdCounter := 1, subscriptions := upd (fun _ => defaultSubscription) 0 { id := 0, subscriber := 20, provider := 30, amount := 30, interval := .daily, state := .active, allowanceId := 0, createdAt := 0, nextBilling := 86450, lastBilled := 50, failedBillings := 0, totalPaid := 30 } } }

/-- Claim C10, witness: the unfunded deployment keeps a zero biller
balance; cancelling the concrete half-way-through subscription (prorated
refund 29 > 0) cannot commit against the zero biller balance; and the
concrete successful billing spend moved the 50 tokens from owner 10
straight to provider 30, leaving an unrelated account 7 untouched. -/
theorem claim_C10_witness :
    baseWorld.token.balances baseWorld.billerAddr = 0 ∧
    cancelSubscription c10w 20 60 0 ≠ .ok c10w ∧
    c4wSpent.token.balances 7 = c4w.token.balances 7 ∧
    c4wSpent.token.balances 30 = c4w.token.balances 30 + 50 := by
  refine ⟨?_, ?_, ?_, ?_⟩
  · exact claim_C10.1 baseWorld baseWorld ⟨rfl, by decide⟩ Relation.ReflTransGen.refl
  · exact claim_C10.2.1 c10w 20 60 0 (by decide) (by decide) c10w
  · exact (claim_C10.2.2 c4w 2 143200 0 30 50 c4wSpent rfl).1 7 (by decide) (by decide)
  · exact (claim_C10.2.2 c4w 2 143200 0 30 50 c4wSpent rfl).2 (by decide)

end AgentFi
